import Mathlib

/-!
Verification of the veil shielded-pool core against its specification.

This file gives a shallow embedding, in Lean 4, of the parts of the
repository that the checked claims are about:

* the blake3 compression for short (at most 64 byte) messages, used by the
  source to derive Poseidon round constants and the native nullifier inner
  compression (the source calls the external blake3 crate; the algorithm
  is the fixed public BLAKE3 function, reproduced here);
* keccak-256, used by the on-chain Merkle tree (the source calls
  solana_program keccak; the algorithm is the fixed public Keccak-256);
* the Poseidon hash over the BN254 scalar field with the round constants
  and Cauchy MDS matrix generated exactly as in
  crates/core/src/crypto/poseidon_constants.rs;
* the off-chain incremental Poseidon Merkle tree
  (crates/core/src/crypto/merkle.rs);
* the on-chain keccak incremental Merkle tree
  (crates/program/src/merkle.rs);
* pool state, verification and processor logic of the on-chain program
  (crates/program/src/state.rs, verification.rs, groth16.rs,
  processor.rs);
* the native and in-circuit nullifier derivations
  (crates/core/src/crypto/nullifier.rs and
  crates/core/src/proof/transfer_circuit.rs, constraint 4).

Bytes are modelled as natural numbers below 256, byte strings as lists,
field elements of the BN254 scalar field as natural numbers below the
modulus with explicit reduction.
-/

namespace Veil

/-- Two to the thirty-two, the modulus of 32-bit words. -/
def w32 : Nat := 4294967296

/-- Two to the sixty-four, the modulus of 64-bit words. -/
def w64 : Nat := 18446744073709551616

/-- Right rotation of a 32-bit word. -/
def rotr32 (x n : Nat) : Nat := ((x >>> n) ||| (x <<< (32 - n))) % w32

/-- Left rotation of a 64-bit word. -/
def rotl64 (x n : Nat) : Nat := ((x <<< n) ||| (x >>> (64 - n))) % w64

/-- Little-endian value of a byte list. -/
def natOfLeBytes : List Nat → Nat
  | [] => 0
  | b :: rest => b + 256 * natOfLeBytes rest

/-- Little-endian bytes of a word, fixed width in bytes. -/
def leBytes : Nat → Nat → List Nat
  | 0, _ => []
  | width + 1, x => x % 256 :: leBytes width (x / 256)

/-- Eight little-endian bytes of a 64-bit integer, as in to_le_bytes. -/
def le64 (x : Nat) : List Nat := leBytes 8 x

/-- Thirty-two little-endian bytes of a field element. -/
def leBytes32 (x : Nat) : List Nat := leBytes 32 x

/-- Pad a byte list with zero bytes up to a length. -/
def padTo (n : Nat) (l : List Nat) : List Nat := l ++ List.replicate (n - l.length) 0

/-- Group a byte list into 32-bit little-endian words. -/
def le32Words : List Nat → List Nat
  | b0 :: b1 :: b2 :: b3 :: rest =>
      (b0 + 256 * b1 + 65536 * b2 + 16777216 * b3) :: le32Words rest
  | _ => []

/-- Group a byte list into 64-bit little-endian words. -/
def le64Words : List Nat → List Nat
  | b0 :: b1 :: b2 :: b3 :: b4 :: b5 :: b6 :: b7 :: rest =>
      (b0 + 256 * b1 + 65536 * b2 + 16777216 * b3 + 4294967296 * b4 +
        1099511627776 * b5 + 281474976710656 * b6 + 72057594037927936 * b7) ::
        le64Words rest
  | _ => []

/-- Four little-endian bytes of a 32-bit word. -/
def word32LeBytes (w : Nat) : List Nat :=
  [w % 256, w / 256 % 256, w / 65536 % 256, w / 16777216 % 256]

/-- Eight little-endian bytes of a 64-bit word. -/
def word64LeBytes (w : Nat) : List Nat :=
  [w % 256, w / 256 % 256, w / 65536 % 256, w / 16777216 % 256,
   w / 4294967296 % 256, w / 1099511627776 % 256,
   w / 281474976710656 % 256, w / 72057594037927936 % 256]

/-! ### BLAKE3 for single-block messages

The source derives Poseidon round constants and the native nullifier
inner value with the blake3 crate, always on messages of at most 64
bytes.  Such a message is a single chunk consisting of a single block,
so the hash is one compression of the block with the flags
CHUNK_START, CHUNK_END and ROOT set (1 + 2 + 8 = 11), zero counter,
and the standard initial values as chaining input. -/

/-- One quarter-round G of the BLAKE3 compression function, returning the
updated four state words. -/
def b3g (a b c d mx my : Nat) : Nat × Nat × Nat × Nat :=
  let a1 := (a + b + mx) % w32
  let d1 := rotr32 (d ^^^ a1) 16
  let c1 := (c + d1) % w32
  let b1 := rotr32 (b ^^^ c1) 12
  let a2 := (a1 + b1 + my) % w32
  let d2 := rotr32 (d1 ^^^ a2) 8
  let c2 := (c1 + d2) % w32
  let b2 := rotr32 (b1 ^^^ c2) 7
  (a2, b2, c2, d2)

/-- The BLAKE3 compression function on one 64-byte block, seven rounds
unrolled with the message schedule pre-applied, returning the first
eight output words. -/
def b3Compress (m0 m1 m2 m3 m4 m5 m6 m7 m8 m9 m10 m11 m12 m13 m14 m15 blockLen flags : Nat) :
    List Nat :=
  let v0 := 1779033703
  let v1 := 3144134277
  let v2 := 1013904242
  let v3 := 2773480762
  let v4 := 1359893119
  let v5 := 2600822924
  let v6 := 528734635
  let v7 := 1541459225
  let v8 := 1779033703
  let v9 := 3144134277
  let v10 := 1013904242
  let v11 := 2773480762
  let v12 := 0
  let v13 := 0
  let v14 := blockLen
  let v15 := flags
  let (v0, v4, v8, v12) := b3g v0 v4 v8 v12 m0 m1
  let (v1, v5, v9, v13) := b3g v1 v5 v9 v13 m2 m3
  let (v2, v6, v10, v14) := b3g v2 v6 v10 v14 m4 m5
  let (v3, v7, v11, v15) := b3g v3 v7 v11 v15 m6 m7
  let (v0, v5, v10, v15) := b3g v0 v5 v10 v15 m8 m9
  let (v1, v6, v11, v12) := b3g v1 v6 v11 v12 m10 m11
  let (v2, v7, v8, v13) := b3g v2 v7 v8 v13 m12 m13
  let (v3, v4, v9, v14) := b3g v3 v4 v9 v14 m14 m15
  let (v0, v4, v8, v12) := b3g v0 v4 v8 v12 m2 m6
  let (v1, v5, v9, v13) := b3g v1 v5 v9 v13 m3 m10
  let (v2, v6, v10, v14) := b3g v2 v6 v10 v14 m7 m0
  let (v3, v7, v11, v15) := b3g v3 v7 v11 v15 m4 m13
  let (v0, v5, v10, v15) := b3g v0 v5 v10 v15 m1 m11
  let (v1, v6, v11, v12) := b3g v1 v6 v11 v12 m12 m5
  let (v2, v7, v8, v13) := b3g v2 v7 v8 v13 m9 m14
  let (v3, v4, v9, v14) := b3g v3 v4 v9 v14 m15 m8
  let (v0, v4, v8, v12) := b3g v0 v4 v8 v12 m3 m4
  let (v1, v5, v9, v13) := b3g v1 v5 v9 v13 m10 m12
  let (v2, v6, v10, v14) := b3g v2 v6 v10 v14 m13 m2
  let (v3, v7, v11, v15) := b3g v3 v7 v11 v15 m7 m14
  let (v0, v5, v10, v15) := b3g v0 v5 v10 v15 m6 m5
  let (v1, v6, v11, v12) := b3g v1 v6 v11 v12 m9 m0
  let (v2, v7, v8, v13) := b3g v2 v7 v8 v13 m11 m15
  let (v3, v4, v9, v14) := b3g v3 v4 v9 v14 m8 m1
  let (v0, v4, v8, v12) := b3g v0 v4 v8 v12 m10 m7
  let (v1, v5, v9, v13) := b3g v1 v5 v9 v13 m12 m9
  let (v2, v6, v10, v14) := b3g v2 v6 v10 v14 m14 m3
  let (v3, v7, v11, v15) := b3g v3 v7 v11 v15 m13 m15
  let (v0, v5, v10, v15) := b3g v0 v5 v10 v15 m4 m0
  let (v1, v6, v11, v12) := b3g v1 v6 v11 v12 m11 m2
  let (v2, v7, v8, v13) := b3g v2 v7 v8 v13 m5 m8
  let (v3, v4, v9, v14) := b3g v3 v4 v9 v14 m1 m6
  let (v0, v4, v8, v12) := b3g v0 v4 v8 v12 m12 m13
  let (v1, v5, v9, v13) := b3g v1 v5 v9 v13 m9 m11
  let (v2, v6, v10, v14) := b3g v2 v6 v10 v14 m15 m10
  let (v3, v7, v11, v15) := b3g v3 v7 v11 v15 m14 m8
  let (v0, v5, v10, v15) := b3g v0 v5 v10 v15 m7 m2
  let (v1, v6, v11, v12) := b3g v1 v6 v11 v12 m5 m3
  let (v2, v7, v8, v13) := b3g v2 v7 v8 v13 m0 m1
  let (v3, v4, v9, v14) := b3g v3 v4 v9 v14 m6 m4
  let (v0, v4, v8, v12) := b3g v0 v4 v8 v12 m9 m14
  let (v1, v5, v9, v13) := b3g v1 v5 v9 v13 m11 m5
  let (v2, v6, v10, v14) := b3g v2 v6 v10 v14 m8 m12
  let (v3, v7, v11, v15) := b3g v3 v7 v11 v15 m15 m1
  let (v0, v5, v10, v15) := b3g v0 v5 v10 v15 m13 m3
  let (v1, v6, v11, v12) := b3g v1 v6 v11 v12 m0 m10
  let (v2, v7, v8, v13) := b3g v2 v7 v8 v13 m2 m6
  let (v3, v4, v9, v14) := b3g v3 v4 v9 v14 m4 m7
  let (v0, v4, v8, v12) := b3g v0 v4 v8 v12 m11 m15
  let (v1, v5, v9, v13) := b3g v1 v5 v9 v13 m5 m0
  let (v2, v6, v10, v14) := b3g v2 v6 v10 v14 m1 m9
  let (v3, v7, v11, v15) := b3g v3 v7 v11 v15 m8 m6
  let (v0, v5, v10, v15) := b3g v0 v5 v10 v15 m14 m10
  let (v1, v6, v11, v12) := b3g v1 v6 v11 v12 m2 m12
  let (v2, v7, v8, v13) := b3g v2 v7 v8 v13 m3 m4
  let (v3, v4, v9, v14) := b3g v3 v4 v9 v14 m7 m13
  [v0 ^^^ v8, v1 ^^^ v9, v2 ^^^ v10, v3 ^^^ v11, v4 ^^^ v12, v5 ^^^ v13, v6 ^^^ v14, v7 ^^^ v15]

/-- Round constants of keccak-f 1600. -/
def keccakRC : List Nat :=
  [1, 32898, 9223372036854808714, 9223372039002292224,
   32907, 2147483649, 9223372039002292353, 9223372036854808585,
   138, 136, 2147516425, 2147483658,
   2147516555, 9223372036854775947, 9223372036854808713, 9223372036854808579,
   9223372036854808578, 9223372036854775936, 32778, 9223372039002259466,
   9223372039002292353, 9223372036854808704, 2147483649, 9223372039002292232]

/-- The keccak state: 25 lanes of 64 bits, lane (x, y) at field x + 5 y. -/
structure KState where
  a0 : Nat
  a1 : Nat
  a2 : Nat
  a3 : Nat
  a4 : Nat
  a5 : Nat
  a6 : Nat
  a7 : Nat
  a8 : Nat
  a9 : Nat
  a10 : Nat
  a11 : Nat
  a12 : Nat
  a13 : Nat
  a14 : Nat
  a15 : Nat
  a16 : Nat
  a17 : Nat
  a18 : Nat
  a19 : Nat
  a20 : Nat
  a21 : Nat
  a22 : Nat
  a23 : Nat
  a24 : Nat
deriving DecidableEq

/-- Theta step of keccak-f. -/
def kTheta (s : KState) : KState :=
  let c0 := s.a0 ^^^ s.a5 ^^^ s.a10 ^^^ s.a15 ^^^ s.a20
  let c1 := s.a1 ^^^ s.a6 ^^^ s.a11 ^^^ s.a16 ^^^ s.a21
  let c2 := s.a2 ^^^ s.a7 ^^^ s.a12 ^^^ s.a17 ^^^ s.a22
  let c3 := s.a3 ^^^ s.a8 ^^^ s.a13 ^^^ s.a18 ^^^ s.a23
  let c4 := s.a4 ^^^ s.a9 ^^^ s.a14 ^^^ s.a19 ^^^ s.a24
  let d0 := c4 ^^^ rotl64 c1 1
  let d1 := c0 ^^^ rotl64 c2 1
  let d2 := c1 ^^^ rotl64 c3 1
  let d3 := c2 ^^^ rotl64 c4 1
  let d4 := c3 ^^^ rotl64 c0 1
  ⟨s.a0 ^^^ d0, s.a1 ^^^ d1, s.a2 ^^^ d2, s.a3 ^^^ d3, s.a4 ^^^ d4, s.a5 ^^^ d0, s.a6 ^^^ d1, s.a7 ^^^ d2, s.a8 ^^^ d3, s.a9 ^^^ d4, s.a10 ^^^ d0, s.a11 ^^^ d1, s.a12 ^^^ d2, s.a13 ^^^ d3, s.a14 ^^^ d4, s.a15 ^^^ d0, s.a16 ^^^ d1, s.a17 ^^^ d2, s.a18 ^^^ d3, s.a19 ^^^ d4, s.a20 ^^^ d0, s.a21 ^^^ d1, s.a22 ^^^ d2, s.a23 ^^^ d3, s.a24 ^^^ d4⟩

/-- Combined rho and pi steps: lane (x, y) rotated by its offset moves
to position (y, 2 x + 3 y). -/
def kRhoPi (s : KState) : KState :=
  ⟨s.a0, rotl64 s.a6 44, rotl64 s.a12 43, rotl64 s.a18 21, rotl64 s.a24 14, rotl64 s.a3 28, rotl64 s.a9 20, rotl64 s.a10 3, rotl64 s.a16 45, rotl64 s.a22 61, rotl64 s.a1 1, rotl64 s.a7 6, rotl64 s.a13 25, rotl64 s.a19 8, rotl64 s.a20 18, rotl64 s.a4 27, rotl64 s.a5 36, rotl64 s.a11 10, rotl64 s.a17 15, rotl64 s.a23 56, rotl64 s.a2 62, rotl64 s.a8 55, rotl64 s.a14 39, rotl64 s.a15 41, rotl64 s.a21 2⟩

/-- Chi step of keccak-f; complement taken by xor with the 64-bit mask. -/
def kChi (s : KState) : KState :=
  ⟨s.a0 ^^^ ((s.a1 ^^^ 18446744073709551615) &&& s.a2),
   s.a1 ^^^ ((s.a2 ^^^ 18446744073709551615) &&& s.a3),
   s.a2 ^^^ ((s.a3 ^^^ 18446744073709551615) &&& s.a4),
   s.a3 ^^^ ((s.a4 ^^^ 18446744073709551615) &&& s.a0),
   s.a4 ^^^ ((s.a0 ^^^ 18446744073709551615) &&& s.a1),
   s.a5 ^^^ ((s.a6 ^^^ 18446744073709551615) &&& s.a7),
   s.a6 ^^^ ((s.a7 ^^^ 18446744073709551615) &&& s.a8),
   s.a7 ^^^ ((s.a8 ^^^ 18446744073709551615) &&& s.a9),
   s.a8 ^^^ ((s.a9 ^^^ 18446744073709551615) &&& s.a5),
   s.a9 ^^^ ((s.a5 ^^^ 18446744073709551615) &&& s.a6),
   s.a10 ^^^ ((s.a11 ^^^ 18446744073709551615) &&& s.a12),
   s.a11 ^^^ ((s.a12 ^^^ 18446744073709551615) &&& s.a13),
   s.a12 ^^^ ((s.a13 ^^^ 18446744073709551615) &&& s.a14),
   s.a13 ^^^ ((s.a14 ^^^ 18446744073709551615) &&& s.a10),
   s.a14 ^^^ ((s.a10 ^^^ 18446744073709551615) &&& s.a11),
   s.a15 ^^^ ((s.a16 ^^^ 18446744073709551615) &&& s.a17),
   s.a16 ^^^ ((s.a17 ^^^ 18446744073709551615) &&& s.a18),
   s.a17 ^^^ ((s.a18 ^^^ 18446744073709551615) &&& s.a19),
   s.a18 ^^^ ((s.a19 ^^^ 18446744073709551615) &&& s.a15),
   s.a19 ^^^ ((s.a15 ^^^ 18446744073709551615) &&& s.a16),
   s.a20 ^^^ ((s.a21 ^^^ 18446744073709551615) &&& s.a22),
   s.a21 ^^^ ((s.a22 ^^^ 18446744073709551615) &&& s.a23),
   s.a22 ^^^ ((s.a23 ^^^ 18446744073709551615) &&& s.a24),
   s.a23 ^^^ ((s.a24 ^^^ 18446744073709551615) &&& s.a20),
   s.a24 ^^^ ((s.a20 ^^^ 18446744073709551615) &&& s.a21)⟩

/-- One round of keccak-f: theta, rho, pi, chi, then iota with the
round constant. -/
def kRound (s : KState) (rc : Nat) : KState :=
  let t := kChi (kRhoPi (kTheta s))
  { t with a0 := t.a0 ^^^ rc }

/-- The keccak-f 1600 permutation: 24 rounds over the round constants. -/
def keccakP (s : KState) : KState := keccakRC.foldl kRound s

/-- Xor a 17-lane rate block into the state. -/
def kAbsorbBlock (s : KState) (l : List Nat) : KState :=
  keccakP ⟨s.a0 ^^^ l.getD 0 0, s.a1 ^^^ l.getD 1 0, s.a2 ^^^ l.getD 2 0, s.a3 ^^^ l.getD 3 0, s.a4 ^^^ l.getD 4 0, s.a5 ^^^ l.getD 5 0, s.a6 ^^^ l.getD 6 0, s.a7 ^^^ l.getD 7 0, s.a8 ^^^ l.getD 8 0, s.a9 ^^^ l.getD 9 0, s.a10 ^^^ l.getD 10 0, s.a11 ^^^ l.getD 11 0, s.a12 ^^^ l.getD 12 0, s.a13 ^^^ l.getD 13 0, s.a14 ^^^ l.getD 14 0, s.a15 ^^^ l.getD 15 0, s.a16 ^^^ l.getD 16 0, s.a17, s.a18, s.a19, s.a20, s.a21, s.a22, s.a23, s.a24⟩


/-- Keccak multi-rate padding at rate 136 with suffix byte one. -/
def kPad (msg : List Nat) : List Nat :=
  let padLen := 136 - msg.length % 136
  if padLen = 1 then msg ++ [129]
  else msg ++ 1 :: List.replicate (padLen - 2) 0 ++ [128]

/-- Absorb the padded message 136 bytes at a time. -/
def kAbsorb : Nat → KState → List Nat → KState
  | 0, s, _ => s
  | fuel + 1, s, bytes =>
      match bytes with
      | [] => s
      | _ => kAbsorb fuel (kAbsorbBlock s (le64Words (bytes.take 136))) (bytes.drop 136)

/-- The all-zero keccak state. -/
def kZeroState : KState :=
  ⟨0, 0, 0, 0, 0, 0, 0, 0, 0, 0, 0, 0, 0, 0, 0, 0, 0, 0, 0, 0, 0, 0, 0, 0, 0⟩

/-- Keccak-256 hash of a byte list, 32-byte output from the first four
lanes. -/
def keccak256 (msg : List Nat) : List Nat :=
  let padded := kPad msg
  let s := kAbsorb (padded.length + 1) kZeroState padded
  (([s.a0, s.a1, s.a2, s.a3]).map word64LeBytes).flatten

/-- BLAKE3 hash of a message of at most 64 bytes: one compression of the
zero-padded block. -/
def blake3Hash (msg : List Nat) : List Nat :=
  let m := le32Words (padTo 64 msg)
  ((b3Compress (m.getD 0 0) (m.getD 1 0) (m.getD 2 0) (m.getD 3 0) (m.getD 4 0)
      (m.getD 5 0) (m.getD 6 0) (m.getD 7 0) (m.getD 8 0) (m.getD 9 0) (m.getD 10 0)
      (m.getD 11 0) (m.getD 12 0) (m.getD 13 0) (m.getD 14 0) (m.getD 15 0)
      msg.length 11).map word32LeBytes).flatten

/-! ### BN254 scalar field and Poseidon

Field elements are naturals below the BN254 scalar modulus, with
explicit reduction.  The round constants and the Cauchy MDS matrix are
generated exactly as in crates/core/src/crypto/poseidon_constants.rs:
constant number i is the blake3 hash of the domain tag, the
little-endian 64-bit index and the ascii suffix, reduced into the field
little-endian; MDS entry (i, j) is the field inverse of i + j + 3. -/

/-- The BN254 scalar field modulus. -/
def bnR : Nat :=
  21888242871839275222246405745257275088548364400416034343698204186575808495617

/-- Field addition. -/
def fAdd (a b : Nat) : Nat := (a + b) % bnR

/-- Field multiplication. -/
def fMul (a b : Nat) : Nat := (a * b) % bnR

/-- Interpret a byte list little-endian and reduce into the field, as
Fr::from_le_bytes_mod_order does. -/
def frFromLeBytes (l : List Nat) : Nat := natOfLeBytes l % bnR

/-- Fuelled modular exponentiation by squaring. -/
def powModAux : Nat → Nat → Nat → Nat → Nat → Nat
  | 0, _, _, acc, _ => acc
  | fuel + 1, b, e, acc, m =>
      if e = 0 then acc
      else powModAux fuel (b * b % m) (e / 2) (if e % 2 = 1 then acc * b % m else acc) m

/-- Modular exponentiation, enough fuel for 256-bit exponents. -/
def powMod (b e m : Nat) : Nat := powModAux 256 (b % m) e (1 % m) m

/-- Field inverse of a nonzero element, by Fermat.  This embeds the
arkworks Fr inverse, which agrees with this on every nonzero element of
the prime field. -/
def fInv (x : Nat) : Nat := powMod x (bnR - 2) bnR

/-- Ascii bytes of the tag Poseidon_BN254_t3_RF8_RP57. -/
def poseidonDomainTag : List Nat :=
  [80, 111, 115, 101, 105, 100, 111, 110, 95, 66, 78, 50, 53, 52, 95,
   116, 51, 95, 82, 70, 56, 95, 82, 80, 53, 55]

/-- Ascii bytes of the suffix round_constant. -/
def roundConstantTag : List Nat :=
  [114, 111, 117, 110, 100, 95, 99, 111, 110, 115, 116, 97, 110, 116]

/-- Round constant number i of the source Poseidon instance. -/
def poseidonRoundConstant (i : Nat) : Nat :=
  frFromLeBytes (blake3Hash (poseidonDomainTag ++ le64 i ++ roundConstantTag))

/-- The 195 round constants, 3 per round for 65 rounds. -/
def poseidonRoundConstants : List Nat := (List.range 195).map poseidonRoundConstant

/-- Entry (i, j) of the Cauchy MDS matrix: the inverse of i + j + 3. -/
def mdsEntry (i j : Nat) : Nat :=
  let s := (i + j + 3) % bnR
  if s = 0 then 1 else fInv s

/-- The Poseidon state, width three. -/
structure PoseidonState where
  s0 : Nat
  s1 : Nat
  s2 : Nat
deriving DecidableEq

/-- The S-box x to the fifth, squared twice then multiplied. -/
def sbox (x : Nat) : Nat :=
  let x2 := fMul x x
  let x4 := fMul x2 x2
  fMul x4 x

/-- Multiplication of the state by the MDS matrix. -/
def mdsMul (st : PoseidonState) : PoseidonState :=
  { s0 := fAdd (fAdd (fMul (mdsEntry 0 0) st.s0) (fMul (mdsEntry 0 1) st.s1))
          (fMul (mdsEntry 0 2) st.s2)
    s1 := fAdd (fAdd (fMul (mdsEntry 1 0) st.s0) (fMul (mdsEntry 1 1) st.s1))
          (fMul (mdsEntry 1 2) st.s2)
    s2 := fAdd (fAdd (fMul (mdsEntry 2 0) st.s0) (fMul (mdsEntry 2 1) st.s1))
          (fMul (mdsEntry 2 2) st.s2) }

/-- A full round: add round constants, S-box on all three, MDS. -/
def fullRound (rc0 rc1 rc2 : Nat) (st : PoseidonState) : PoseidonState :=
  mdsMul { s0 := sbox (fAdd st.s0 rc0), s1 := sbox (fAdd st.s1 rc1),
           s2 := sbox (fAdd st.s2 rc2) }

/-- A partial round: add round constants, S-box on the first element, MDS. -/
def partRound (rc0 rc1 rc2 : Nat) (st : PoseidonState) : PoseidonState :=
  mdsMul { s0 := sbox (fAdd st.s0 rc0), s1 := fAdd st.s1 rc1, s2 := fAdd st.s2 rc2 }

/-- Run the rounds from a given round index with a given constant table:
rounds 0 to 3 and 61 to 64 are full, rounds 4 to 60 are partial,
matching 4 full, 57 partial, 4 full in the source permutation. -/
def poseidonRoundsFrom (rc : List Nat) : Nat → Nat → PoseidonState → PoseidonState
  | 0, _, st => st
  | n + 1, idx, st =>
      let rc0 := rc.getD (3 * idx) 0
      let rc1 := rc.getD (3 * idx + 1) 0
      let rc2 := rc.getD (3 * idx + 2) 0
      let st2 := if idx < 4 ∨ 61 ≤ idx then fullRound rc0 rc1 rc2 st
                 else partRound rc0 rc1 rc2 st
      poseidonRoundsFrom rc n (idx + 1) st2

/-- The Poseidon permutation: 65 rounds over the source constant table. -/
def poseidonPermute (st : PoseidonState) : PoseidonState :=
  poseidonRoundsFrom poseidonRoundConstants 65 0 st

/-- Hash two field elements: state zero, a, b, permute, take the first
element, as Poseidon::hash2 does. -/
def poseidonHash2 (a b : Nat) : Nat :=
  (poseidonPermute { s0 := 0, s1 := a, s2 := b }).s0

/-- Errors of the native Poseidon front end. -/
inductive PoseidonError where
  | invalidLength (expected got : Nat) : PoseidonError
  | conversionError : PoseidonError
  | emptyInput : PoseidonError
deriving DecidableEq

/-- The native variable-input front end Poseidon::hash: empty input
fails with EmptyInput, more than two inputs fail with InvalidLength,
otherwise the inputs are placed after the capacity element and one
permutation is run. -/
def poseidonHash (inputs : List Nat) : Except PoseidonError Nat :=
  if inputs.isEmpty then .error .emptyInput
  else if inputs.length > 2 then .error (.invalidLength 2 inputs.length)
  else .ok (poseidonPermute
    { s0 := 0, s1 := inputs.getD 0 0, s2 := inputs.getD 1 0 }).s0

/-- Absorb chunks of two into the rate portion of the state, permuting
after each chunk, as the gadget hash_sponge does. -/
def spongeAbsorb : List Nat → PoseidonState → PoseidonState
  | [], st => st
  | [a], st => poseidonPermute { st with s1 := fAdd st.s1 a }
  | a :: b :: rest, st =>
      spongeAbsorb rest (poseidonPermute { st with s1 := fAdd st.s1 a, s2 := fAdd st.s2 b })

/-- The sponge construction of the in-circuit gadget, value level:
absorb at rate two, then squeeze the first state element. -/
def gadgetHashSponge (inputs : List Nat) : Nat :=
  (spongeAbsorb inputs { s0 := 0, s1 := 0, s2 := 0 }).s0

/-- The in-circuit gadget variable-input hash, value level: empty input
fails, more than two inputs go to the sponge, otherwise direct
absorption and one permutation. -/
def gadgetHash (inputs : List Nat) : Option Nat :=
  if inputs.isEmpty then none
  else if inputs.length > 2 then some (gadgetHashSponge inputs)
  else some (poseidonPermute
    { s0 := 0, s1 := inputs.getD 0 0, s2 := inputs.getD 1 0 }).s0

/-! ### Off-chain Poseidon Merkle tree, crates/core/src/crypto/merkle.rs -/

/-- Tree depth: 20 levels. -/
def TREE_DEPTH : Nat := 20

/-- Maximum number of leaves. -/
def MAX_LEAVES : Nat := 2 ^ 20

/-- Errors of the off-chain Merkle tree. -/
inductive MerkleError where
  | treeFull : MerkleError
  | invalidLeafIndex (i : Nat) : MerkleError
  | invalidProofLength : MerkleError
deriving DecidableEq

/-- The zero hashes of compute_zero_hashes: level zero is the zero field
element, level k plus one is the Poseidon hash of two copies of level k. -/
def coreZeros : Nat → Nat
  | 0 => 0
  | k + 1 => poseidonHash2 (coreZeros k) (coreZeros k)

/-- A Merkle path: sibling hashes from leaf to root, direction bits
(true means the current node is the right child), and the leaf index. -/
structure MerklePath where
  siblings : List Nat
  indices : List Bool
  leaf_index : Nat
deriving DecidableEq

/-- Fold a leaf up the path, choosing the argument order by the
direction bit at each level. -/
def pathFold : List (Nat × Bool) → Nat → Nat
  | [], cur => cur
  | (sib, isRight) :: rest, cur =>
      pathFold rest (if isRight then poseidonHash2 sib cur else poseidonHash2 cur sib)

/-- MerklePath::verify: both vectors must have length 20, then the leaf
is folded up and compared with the expected root. -/
def MerklePath.verify (p : MerklePath) (leaf expected_root : Nat) : Bool :=
  if p.siblings.length ≠ TREE_DEPTH ∨ p.indices.length ≠ TREE_DEPTH then false
  else pathFold (p.siblings.zip p.indices) leaf == expected_root

/-- The off-chain incremental Merkle tree state.  The source also caches
the zero-hash table in the struct; it is a constant and is referred to
directly here. -/
structure PoseidonMerkleTree where
  next_index : Nat
  filled_subtrees : List Nat
  current_root : Nat
  leaves : List Nat
deriving DecidableEq

/-- A fresh empty tree. -/
def PoseidonMerkleTree.new : PoseidonMerkleTree :=
  { next_index := 0
    filled_subtrees := (List.range TREE_DEPTH).map coreZeros
    current_root := coreZeros TREE_DEPTH
    leaves := [] }

/-- The insertion walk: at each level, an even index stores the running
hash into the filled subtrees and hashes with the zero hash on the
right, an odd index hashes with the stored filled subtree on the left. -/
def insertUp : Nat → Nat → Nat → Nat → List Nat → Nat × List Nat
  | 0, _, _, cur, filled => (cur, filled)
  | n + 1, level, idx, cur, filled =>
      if idx % 2 = 0 then
        insertUp n (level + 1) (idx / 2) (poseidonHash2 cur (coreZeros level))
          (filled.set level cur)
      else
        insertUp n (level + 1) (idx / 2) (poseidonHash2 (filled.getD level 0) cur) filled

/-- PoseidonMerkleTree::insert: fail with TreeFull when the tree holds
the maximal number of leaves, otherwise append the leaf and walk up. -/
def PoseidonMerkleTree.insert (t : PoseidonMerkleTree) (leaf : Nat) :
    Except MerkleError (PoseidonMerkleTree × Nat) :=
  if t.next_index ≥ MAX_LEAVES then .error .treeFull
  else
    let r := insertUp TREE_DEPTH 0 t.next_index leaf t.filled_subtrees
    .ok ({ next_index := t.next_index + 1, filled_subtrees := r.2,
           current_root := r.1, leaves := t.leaves ++ [leaf] }, t.next_index)

/-- Hash a level pairwise into the next level. -/
def pairUp : List Nat → List Nat
  | a :: b :: rest => poseidonHash2 a b :: pairUp rest
  | _ => []

/-- The proof-generation walk: at each level record the sibling of the
current index and move to the pairwise-hashed next level. -/
def genLoop : Nat → Nat → List Nat → List Nat × List Bool
  | 0, _, _ => ([], [])
  | n + 1, idx, nodes =>
      let isRight := idx % 2 = 1
      let sib := nodes.getD (if idx % 2 = 1 then idx - 1 else idx + 1) 0
      let r := genLoop n (idx / 2) (pairUp nodes)
      (sib :: r.1, isRight :: r.2)

/-- PoseidonMerkleTree::generate_proof: reject an index at or above the
next free index, otherwise pad the stored leaves with zero-hash leaves
to the full width and collect the siblings level by level. -/
def PoseidonMerkleTree.generateProof (t : PoseidonMerkleTree) (leaf_index : Nat) :
    Except MerkleError MerklePath :=
  if leaf_index ≥ t.next_index then .error (.invalidLeafIndex leaf_index)
  else
    let base := t.leaves ++ List.replicate (2 ^ TREE_DEPTH - t.leaves.length) (coreZeros 0)
    let r := genLoop TREE_DEPTH leaf_index base
    .ok { siblings := r.1, indices := r.2, leaf_index := leaf_index }

/-- Insert a list of leaves in order, left to right. -/
def insertAll (t : PoseidonMerkleTree) : List Nat → Except MerkleError PoseidonMerkleTree
  | [] => .ok t
  | leaf :: rest =>
      match t.insert leaf with
      | .error e => .error e
      | .ok r => insertAll r.1 rest

/-- The tree built from a leaf sequence by inserting into a fresh tree. -/
def treeOfLeaves (L : List Nat) : Except MerkleError PoseidonMerkleTree :=
  insertAll PoseidonMerkleTree.new L

/-! ### On-chain keccak Merkle tree, crates/program/src/merkle.rs -/

namespace Prog

/-- The hardcoded level-zero value of the on-chain tree, the keccak-256
hash of 32 zero bytes. -/
def zeroValue : List Nat :=
  [41, 13, 236, 217, 84, 139, 98, 168, 214, 3, 69, 169, 136, 56, 111, 200,
   75, 166, 188, 149, 72, 64, 8, 246, 54, 47, 147, 22, 14, 243, 229, 99]

/-- hash_pair: keccak-256 of the two 32-byte values concatenated. -/
def hashPair (left right : List Nat) : List Nat := keccak256 (left ++ right)

/-- get_zero_hash: level zero is the hardcoded zero value, each level
above hashes two copies of the one below. -/
def progZeros : Nat → List Nat
  | 0 => zeroValue
  | k + 1 => hashPair (progZeros k) (progZeros k)

/-- Errors of the on-chain Merkle tree. -/
inductive MerkleError where
  | treeFull : MerkleError
  | invalidProof : MerkleError
  | invalidLeafIndex : MerkleError
deriving DecidableEq

/-- The on-chain incremental Merkle tree state. -/
structure IncrementalMerkleTree where
  next_index : Nat
  filled_subtrees : List (List Nat)
  current_root : List Nat
deriving DecidableEq

/-- IncrementalMerkleTree::new: filled subtrees hold the zero hash of
their level and the root is the zero hash of the top level. -/
def IncrementalMerkleTree.new : IncrementalMerkleTree :=
  { next_index := 0
    filled_subtrees := (List.range TREE_DEPTH).map progZeros
    current_root := progZeros TREE_DEPTH }

/-- The insertion walk of the on-chain tree, keccak variant. -/
def insertUpK : Nat → Nat → Nat → List Nat → List (List Nat) → List Nat × List (List Nat)
  | 0, _, _, cur, filled => (cur, filled)
  | n + 1, level, idx, cur, filled =>
      if idx % 2 = 0 then
        insertUpK n (level + 1) (idx / 2) (hashPair cur (progZeros level))
          (filled.set level cur)
      else
        insertUpK n (level + 1) (idx / 2) (hashPair (filled.getD level []) cur) filled

/-- IncrementalMerkleTree::insert: require the next index below the
maximal leaf count, then walk up, set the root, and advance the index,
returning the index of the inserted leaf. -/
def IncrementalMerkleTree.insert (t : IncrementalMerkleTree) (leaf : List Nat) :
    Except MerkleError (IncrementalMerkleTree × Nat) :=
  if t.next_index < MAX_LEAVES then
    let r := insertUpK TREE_DEPTH 0 t.next_index leaf t.filled_subtrees
    .ok ({ next_index := t.next_index + 1, filled_subtrees := r.2, current_root := r.1 },
      t.next_index)
  else .error .treeFull

end Prog

/-! ### Pool state, crates/program/src/state.rs -/

/-- Number of recent roots kept in the validity window. -/
def ROOT_HISTORY_SIZE : Nat := 30

/-- Default relayer fee in basis points. -/
def DEFAULT_RELAYER_FEE_BPS : Nat := 30

/-- A 32-byte value of all zero bytes. -/
def zeros32 : List Nat := List.replicate 32 0

/-- The on-chain pool account state. -/
structure PrivacyPool where
  authority : List Nat
  merkle_tree : Prog.IncrementalMerkleTree
  root_history : List (List Nat)
  root_history_index : Nat
  nullifier_count : Nat
  relayer_fee_bps : Nat
  total_fees_collected : Nat
  bump : Nat
deriving DecidableEq

/-- PrivacyPool::initialize: a fresh tree, an all-zero root history and
zeroed counters. -/
def PrivacyPool.initPool (authority : List Nat) (bump : Nat) : PrivacyPool :=
  { authority := authority
    merkle_tree := Prog.IncrementalMerkleTree.new
    root_history := List.replicate ROOT_HISTORY_SIZE zeros32
    root_history_index := 0
    nullifier_count := 0
    relayer_fee_bps := DEFAULT_RELAYER_FEE_BPS
    total_fees_collected := 0
    bump := bump }

/-- PrivacyPool::current_root. -/
def PrivacyPool.current_root (p : PrivacyPool) : List Nat := p.merkle_tree.current_root

/-- PrivacyPool::commitment_count. -/
def PrivacyPool.commitment_count (p : PrivacyPool) : Nat := p.merkle_tree.next_index

/-- PrivacyPool::add_commitment: remember the old root, insert into the
tree mapping a tree error to PoolFull, then push the old root into the
circular history buffer. -/
def PrivacyPool.add_commitment (p : PrivacyPool) (commitment : List Nat) :
    Except Unit (PrivacyPool × Nat) :=
  match p.merkle_tree.insert commitment with
  | .error _ => .error ()
  | .ok r =>
      .ok ({ p with
              merkle_tree := r.1
              root_history := p.root_history.set p.root_history_index
                p.merkle_tree.current_root
              root_history_index := (p.root_history_index + 1) % ROOT_HISTORY_SIZE }, r.2)

/-- PrivacyPool::is_valid_root: the root equals the current root, or it
appears in the history as a nonzero entry. -/
def PrivacyPool.is_valid_root (p : PrivacyPool) (root : List Nat) : Bool :=
  if root = p.merkle_tree.current_root then true
  else p.root_history.any (fun r => r == root && r ≠ zeros32)

/-- PrivacyPool::record_nullifier_spent: only a counter increment. -/
def PrivacyPool.record_nullifier_spent (p : PrivacyPool) : PrivacyPool :=
  { p with nullifier_count := p.nullifier_count + 1 }

/-! ### Groth16 verification, crates/program/src/groth16.rs -/

/-- Groth16 proof size in bytes. -/
def PROOF_SIZE : Nat := 256

/-- Number of public inputs of the transfer circuit. -/
def NUM_PUBLIC_INPUTS : Nat := 3

/-- The compiled-in verifying key component alpha in G1: 64 zero bytes. -/
def vkAlphaG1 : List Nat := List.replicate 64 0

/-- The compiled-in verifying key component beta in G2: 128 zero bytes. -/
def vkBetaG2 : List Nat := List.replicate 128 0

/-- The compiled-in verifying key component gamma in G2: 128 zero bytes. -/
def vkGammaG2 : List Nat := List.replicate 128 0

/-- The compiled-in verifying key component delta in G2: 128 zero bytes. -/
def vkDeltaG2 : List Nat := List.replicate 128 0

/-- is_vk_initialized: some byte of alpha is nonzero. -/
def isVkInitialized : Bool := vkAlphaG1.any (fun b => b ≠ 0)

/-- A parsed Groth16 proof: the three proof points as byte strings. -/
structure Groth16Proof where
  a : List Nat
  b : List Nat
  c : List Nat
deriving DecidableEq

/-- Groth16Proof::from_bytes: at least 256 bytes, split 64, 128, 64. -/
def Groth16Proof.fromBytes (bytes : List Nat) : Option Groth16Proof :=
  if bytes.length < PROOF_SIZE then none
  else some { a := bytes.take 64, b := (bytes.drop 64).take 128,
              c := (bytes.drop 192).take 64 }

/-- Errors of the Groth16 verifier wrapper. -/
inductive Groth16Error where
  | invalidProofSize : Groth16Error
  | invalidPublicInputs : Groth16Error
  | verificationFailed : Groth16Error
  | vkNotInitialized : Groth16Error
deriving DecidableEq

/-- The external pairing verifier of the groth16-solana crate, which is
outside this repository: it receives the parsed proof and the three
public inputs; none means constructing the verifier failed, some b means
the pairing check ran and returned b.  The on-chain code is verified
for every such function. -/
def PairingVerifier : Type := Groth16Proof → List (List Nat) → Option Bool

/-- verify_groth16_transfer: parse the proof, return Ok true without
ever invoking the pairing verifier when the verifying key is not
initialized, otherwise run the external verifier on the three public
inputs. -/
def verify_groth16_transfer (pairing : PairingVerifier) (proof_bytes : List Nat)
    (merkle_root nullifier new_commitment : List Nat) : Except Groth16Error Bool :=
  match Groth16Proof.fromBytes proof_bytes with
  | none => .error .invalidProofSize
  | some proof =>
      if !isVkInitialized then .ok true
      else
        match pairing proof [merkle_root, nullifier, new_commitment] with
        | none => .error .verificationFailed
        | some b => .ok b

/-! ### Proof verification, crates/program/src/verification.rs -/

/-- MVP proof size: 64-byte signature plus 32-byte public key. -/
def MVP_PROOF_SIZE : Nat := 96

/-- The two supported proof types. -/
inductive ProofType where
  | signature : ProofType
  | groth16 : ProofType
deriving DecidableEq

/-- ProofType::detect: by length only. -/
def ProofType.detect (proof : List Nat) : Option ProofType :=
  if proof.length = MVP_PROOF_SIZE then some .signature
  else if proof.length = PROOF_SIZE then some .groth16
  else none

/-- A parsed MVP proof. -/
structure MvpProof where
  signature : List Nat
  pubkey : List Nat
deriving DecidableEq

/-- MvpProof::from_bytes: at least 96 bytes, split 64 and 32. -/
def MvpProof.fromBytes (proof : List Nat) : Option MvpProof :=
  if proof.length < MVP_PROOF_SIZE then none
  else some { signature := proof.take 64, pubkey := (proof.drop 64).take 32 }

/-- build_transfer_message: keccak-256 of nullifier, new commitment and
root concatenated. -/
def build_transfer_message (nullifier new_commitment root : List Nat) : List Nat :=
  keccak256 (nullifier ++ new_commitment ++ root)

/-- build_unshield_message: keccak-256 of nullifier, recipient, the
little-endian amount and root concatenated. -/
def build_unshield_message (nullifier recipient : List Nat) (amount : Nat)
    (root : List Nat) : List Nat :=
  keccak256 (nullifier ++ recipient ++ le64 amount ++ root)

/-- verify_signature: the source never checks the signature against the
message; it only requires that the signature bytes are not all zero and
the public key bytes are not all zero. -/
def verify_signature (message signature pubkey : List Nat) : Bool :=
  let _ := message
  signature.any (fun b => b ≠ 0) && pubkey.any (fun b => b ≠ 0)

/-- Errors of the verification module. -/
inductive VerificationError where
  | invalidProofFormat : VerificationError
  | verificationFailed : VerificationError
  | invalidPublicKey : VerificationError
deriving DecidableEq

/-- verify_transfer_proof: detect the type by length; signature proofs
go through verify_signature on the transfer message, Groth16 proofs go
through verify_groth16_transfer with errors collapsed. -/
def verify_transfer_proof (pairing : PairingVerifier) (proof nullifier new_commitment
    root : List Nat) : Except VerificationError Bool :=
  match ProofType.detect proof with
  | none => .error .invalidProofFormat
  | some .signature =>
      match MvpProof.fromBytes proof with
      | none => .error .invalidProofFormat
      | some mvp =>
          .ok (verify_signature (build_transfer_message nullifier new_commitment root)
            mvp.signature mvp.pubkey)
  | some .groth16 =>
      match verify_groth16_transfer pairing proof root nullifier new_commitment with
      | .error _ => .error .verificationFailed
      | .ok b => .ok b

/-- verify_unshield_proof: signature proofs are checked on the unshield
message; Groth16 proofs are verified against the fixed all-zero burn
commitment, without using the recipient or the amount. -/
def verify_unshield_proof (pairing : PairingVerifier) (proof nullifier recipient : List Nat)
    (amount : Nat) (root : List Nat) : Except VerificationError Bool :=
  match ProofType.detect proof with
  | none => .error .invalidProofFormat
  | some .signature =>
      match MvpProof.fromBytes proof with
      | none => .error .invalidProofFormat
      | some mvp =>
          .ok (verify_signature (build_unshield_message nullifier recipient amount root)
            mvp.signature mvp.pubkey)
  | some .groth16 =>
      match verify_groth16_transfer pairing proof root nullifier zeros32 with
      | .error _ => .error .verificationFailed
      | .ok b => .ok b

/-! ### Instruction processors, crates/program/src/processor.rs

Each instruction runs in the transactional context of the host runtime:
account mutations of an instruction that returns an error are not
committed.  The processors are embedded as functions from the pre-state
to either an error or the post-state; the committed state of a failed
instruction is the unchanged pre-state, applied below by applyTransfer. -/

/-- Error codes of the program. -/
inductive NyxError where
  | invalidAmount : NyxError
  | invalidProof : NyxError
  | nullifierSpent : NyxError
  | invalidCommitment : NyxError
  | poolFull : NyxError
  | proofVerificationFailed : NyxError
deriving DecidableEq

/-- An instruction error: a program code or a verification code. -/
inductive ProcError where
  | nyx (e : NyxError) : ProcError
  | ver (e : VerificationError) : ProcError
  | token : ProcError
deriving DecidableEq

/-- The nullifier marker account written by a spend. -/
structure NullifierMarker where
  pool : List Nat
  nullifier : List Nat
  spent_at : Nat
deriving DecidableEq

/-- process_transfer: require a proof of at least 96 bytes, verify it
against the current root only, write the marker, record the spent
nullifier, then append the new commitment. -/
def process_transfer (pairing : PairingVerifier) (poolKey : List Nat) (pool : PrivacyPool)
    (nullifier new_commitment proof : List Nat) (slot : Nat) :
    Except ProcError (PrivacyPool × NullifierMarker) :=
  if proof.length < MVP_PROOF_SIZE then .error (.nyx .invalidProof)
  else
    match verify_transfer_proof pairing proof nullifier new_commitment
        pool.current_root with
    | .error e => .error (.ver e)
    | .ok valid =>
        if !valid then .error (.nyx .invalidProof)
        else
          match pool.record_nullifier_spent.add_commitment new_commitment with
          | .error _ => .error (.nyx .poolFull)
          | .ok r =>
              .ok (r.1, { pool := poolKey, nullifier := nullifier, spent_at := slot })

/-- process_unshield_sol: require a positive amount and a proof of at
least 96 bytes, verify against the current root only, write the marker,
record the spent nullifier, then move lamports from the vault. -/
def process_unshield_sol (pairing : PairingVerifier) (poolKey : List Nat) (pool : PrivacyPool)
    (nullifier : List Nat) (amount : Nat) (proof recipient : List Nat)
    (vault_lamports slot : Nat) :
    Except ProcError (PrivacyPool × NullifierMarker × Nat) :=
  if amount = 0 then .error (.nyx .invalidAmount)
  else if proof.length < MVP_PROOF_SIZE then .error (.nyx .invalidProof)
  else
    match verify_unshield_proof pairing proof nullifier recipient amount
        pool.current_root with
    | .error e => .error (.ver e)
    | .ok valid =>
        if !valid then .error (.nyx .invalidProof)
        else
          if vault_lamports < amount then .error .token
          else .ok (pool.record_nullifier_spent,
            { pool := poolKey, nullifier := nullifier, spent_at := slot },
            vault_lamports - amount)

/-- Modelled from the spec: the host runtime commits the account
mutations of an instruction only when it succeeds; on an error no state
changes (section 5 of the specification, atomic transactional context;
the runtime itself is outside this repository).  The committed pool
state and marker of a transfer instruction. -/
def applyTransfer (pairing : PairingVerifier) (poolKey : List Nat) (pool : PrivacyPool)
    (nullifier new_commitment proof : List Nat) (slot : Nat) :
    PrivacyPool × Option NullifierMarker :=
  match process_transfer pairing poolKey pool nullifier new_commitment proof slot with
  | .error _ => (pool, none)
  | .ok r => (r.1, some r.2)

/-! ### Nullifier derivations, crates/core/src/crypto/nullifier.rs and
the transfer circuit constraint 4 -/

/-- Ascii bytes of the tag NYX_SPENDING_KEY. -/
def spendingKeyDomain : List Nat :=
  [78, 89, 88, 95, 83, 80, 69, 78, 68, 73, 78, 71, 95, 75, 69, 89]

/-- Ascii bytes of the tag NYX_NULLIFIER. -/
def nullifierDomain : List Nat :=
  [78, 89, 88, 95, 78, 85, 76, 76, 73, 70, 73, 69, 82]

/-- SpendingKey::from_secret: Poseidon of the secret and the domain tag,
both mapped into the field little-endian. -/
def SpendingKey.from_secret (secret : List Nat) : Nat :=
  poseidonHash2 (frFromLeBytes secret) (frFromLeBytes spendingKeyDomain)

/-- Nullifier::derive: the inner value combines the little-endian leaf
index and the domain tag with a blake3 hash mapped into the field, and
the outer compression is Poseidon with the spending key.  The spending
key struct wraps one field element, taken directly here. -/
def Nullifier.derive (spending_key : Nat) (leaf_index : Nat) : Nat :=
  poseidonHash2 spending_key
    (frFromLeBytes (blake3Hash (le64 leaf_index ++ nullifierDomain)))

/-- The nullifier the transfer circuit enforces in constraint 4: the
inner compression of the leaf index and the domain tag is Poseidon, and
the outer compression is Poseidon with the spending key. -/
def circuitNullifier (spending_key : Nat) (leaf_index : Nat) : Nat :=
  poseidonHash2 spending_key
    (poseidonHash2 (leaf_index % bnR) (frFromLeBytes nullifierDomain))

/-! ### Literal table of the Poseidon round constants

The following list is the value of poseidonRoundConstants; the equality
is proved below (rcEq) and lets heavy evaluations avoid re-deriving the
constants through blake3. -/

/-- The 195 Poseidon round constants as literals. -/
def rcLits : List Nat :=
  [324637774244350935042787362202773448850118467768865806858341520332650146545,
   12179190029898179937049580983847556987886581619596162360990158314104993960124,
   20816935544141552598501001222528460219779521468532662174985494248321874247364,
   6246465520783235493316693425701079981283229817809515770731836052944987853829,
   4809431065061829069400981110521700282132185995318019001019074708466731160908,
   9978176278811222387883353590663021720482757870404947289378906970707802570616,
   14896525681489483373393791199212487275941218052773899273414777610762769020998,
   1052350129553098514694082145354422567887894103415253443198661943088347823053,
   9002925743106689966853595139609653138184442399461092093182143724318129938443,
   13226470159402197787450908414095344752028535487342638435528778772530701630943,
   9763856706238836637898563705346048200893655470086594964510221637194335588459,
   12961781333200993997673156922608544786660238926392633120403791996573732817754,
   10448117954656102876875570145603366562728137000710751224388028774319237396226,
   5266288253163562644159263790233132410256592473481759711214357164959740506763,
   5560454253677469449559010008321747201441949801091196305444685409889839880453,
   19732720815672675153206127633363320950027856618902659077277537197944093925238,
   7914686123431583040262186507563263406922666244918959451395009132298701473765,
   21865093514012479947786432521672459029994265495237201166751041251659124297711,
   6814662032045734956931305501018742232677605887324863260778561614773085376332,
   20681863186821581741931869322869112062075001157137585222411634527846051569978,
   16802261913147310749685802032128339845126712830092299279328788395176834858682,
   3070709377405109737424619435840446850853573783431363767042078279437809801746,
   12656872980740880604106271026899754850826715626134097984614834337928733694568,
   14325869951155025679262895779117267976987405558621029489504686774567774509762,
   16443118333693307081633428904946886245252998303976607678719857587512813125560,
   2284079095716785430380857640471002799121917111843667470918634402661311848809,
   1169227101150739272681130988487467135464426249146718680046285426362267948737,
   12106864833520193232183398537562808449093691445912570798238874763105077562990,
   15716530361060598000322070941210842353718867904399719579024489428600034005013,
   4968467089622199250025257550716355981224839525644462940272734804093974777992,
   12347145875026545293969068509099340409276106973465723400991352485820087723615,
   20522906064086219772973706417847313044448900841680426026824832501871621352715,
   364885593727287920333916050012671803994031975837827780162840565520490868244,
   17713083252821424314458373809785485999075368610423623896680771723739156430720,
   5134295003636304518217983102517670397628542522135992168248741400845909719755,
   12262893426378152117168322223329928396793481739516869408021075883226414873916,
   21674565105565937860326117222564699290983685676246586316930377250524018398589,
   9021861342297965539716439878340511586744948987612869175883340962570533597073,
   9299309531795466403110487929341004704623763732657395637847769902435890847251,
   1638171415928106291793378910225863019692405189808318266463029904136788690147,
   12980723709317143322848714314531094717422550162154474587510393392103094937354,
   3415764737971559137734723712532343106828087722212490893791358856771554695840,
   12919267306897316456138092854442522537845899593210479461499949333991479105455,
   2791640224642969566195389381948469925000113188884896707062168158859410791101,
   5660014348064807688458092685316979850361930305098541693371561337807650242712,
   1859609840159371868239743151515659528807866473809976074115745398591588841388,
   19045918994654593764508231443612865238739902841336099594362479305034015109132,
   4136540344556354011021821376689768248506985762665852228986299455257121076253,
   5856032539709807660141857963025304553957943673452746958738811464184109999424,
   1587733587994063244877741637477517787442934866842212734208687327397483557401,
   19340553945849667941506396255551576780227722942115328361443670430759522080506,
   6284599966622000377165350233477309512823037809378324493737096150676521305250,
   5139028037969801198604152325616476857410850473439364300195553630038180450209,
   307710255880392017274849277989959559975166497146826247976396193921942488832,
   17538919516463861232030638502583434496155931417679392428808522126778797273164,
   19020518984091363635567208723382723882183875194110819511029198806809794212348,
   17030923664799461894794105322500941159048464573798020788226746743531299678039,
   7337162904224792397729293193997546590205954458769438293043383969503823618671,
   4896232820137956536039803416250515510378637574132050591887542625845940275695,
   1799367351853150031608069412573836280599259916491880009065123856518305046889,
   2547732010912417262570490979524651704982691269830956998898520090766581873579,
   3147365393372907068999980116123540701586565477174078140572478161489681765379,
   14126401403937133465067819139685612543390958825962706633633762064544143916984,
   1225380310626502383201446277589931475041665461021905642898688061702160088862,
   1403071399169235427293740031550124870992698278377285078630600730890464095287,
   8365409757219978266137068665520493984595306941982326114387843622671659604879,
   13409803986009283979124960528879906442563338753413582775469096954450361093696,
   21207815832430125513775547535224591189808269712242757545739800917455065922878,
   13413969606281249263719289182609420238628164463374348410473786231696772832658,
   13286024955675243683276374009004832308238120118705605436785341895115838733171,
   12117293016643015134195551800053475795204886736646534602156712605517247685219,
   3314755673003213043873355205257611109790937801467526701777821011756823000240,
   750680316314867362387507196138933965533565842585723466285503030986550841243,
   4329026299353023055117917089115864709396630879784224906118668604691963659698,
   11483557113983536202515681294000882990653152869486616135270055004313199104805,
   959461806570374239056819940486361563467259211581349818352791987192458096984,
   7332602266131795248448900567097856202241363833478971820610425809067565354334,
   8874309396699038867443155907362002361609253735413834187161703007960814530617,
   4703084594366822027931816492229403756774755562363560805333170541958748240961,
   3032000736160480617220859773321294811084068435348708466402007915723468451962,
   7116252332296251977882287010823232442546764381916655739449548006755779994526,
   9863339323169418031723292957795434002973015656670929688444430651075081640715,
   724775301994086956950904945523200186602297186341283270003678527286450803235,
   14754536441892812158892333871687802447329578482534887106388135773824246802629,
   16218596322578248754366670928347213621347575367689923025078575902426438911559,
   9552545995736465966246947359775925184995674474761206532450614553464502471573,
   7314955581901454378093263127128061652832358855978379455873613320324288583409,
   8439003817090576554973173009320573121256824667757065865769781241565683513488,
   3239703413497845215905456232116695295931113596636657376570101129614308843190,
   9955538872885866931769238690483067604785191568562570326739329351696732773867,
   2062434638744991124453658383683860752764791462909061591460065375483927364924,
   3479327065536959289014856022789205637909497324160540573398385693042392607872,
   15625422792142369681433303298511750541356814023229760863211459155690996713666,
   10829708337837245548194239061230566441325333750683166494226363792633338773827,
   4232332637498740773071447305565462077387757313059182759506671782556274661482,
   7887452615365867860244713630933781788787117882586895719227293820984045863775,
   4264566897960334832328233889650392624276422353979615868637146876369163808875,
   1399317392780110338402174893378424045882466552947623503866568941256479456620,
   3291353279283967782340884601256168578416682592123951056260904870937992261495,
   4247217551378102750770210420450884049461451629440077780454673045732290012590,
   12827980656398869949665687617416925156046625723355795848338013039430021859133,
   6947532813420656899055965207636583322196649677112978593388440710910611407760,
   7529799707095744210761416309496405240971397697422878784584909431843919327174,
   21729047204774433937416934806673299589242194171786189920980140387215728356858,
   14493106273797015963049940641707572561718711783982093298602095704058155914287,
   1095737688473085066139803197324630720923874913951758404972004601936224253956,
   18494990323529539522710286222392698473137168491733523818522433656875027205159,
   16222814695591912692017491839941682411871041120011447775105265358931170495664,
   9795682939923076256002359457593679306839226848013031474529998131277487214298,
   4557875783800284159901309553864638951531757899262837944809624202820100282326,
   11377721701444642119419358711871969878189276217371773264948143462758027696732,
   14117814151124110506773157896529581921690936191595581409619825894062103806666,
   3241464695904494467326137644314648019348172199662181184498174826670453429279,
   2121992455293604747984652658239886469011009391088490223924216840834719563300,
   17545704209039277800717881963495030708269542665651596587972958566838581516871,
   8212583106729443580422520995352385642777024008469643364788678345117522825483,
   4845285869396540659200058297781093428765194283049389135011301342554461636872,
   12068776568799572031603595297574974309977555719163458689928374240320071714824,
   18973195616372047254782502952051344538298972353520812838204413677804685390408,
   15455263605013746742008306666736345213577807021746933071376600198224805255998,
   17364254448025639362115387538714813165098260320888700331164124683407708736182,
   14845181364229378734710829992096455868143805078501895767120324593713525910883,
   850477242757385711671843837374606359070728060742190020647080299294155550119,
   6152977897301624856754954791686449772398990254023288303772059898597421332935,
   16456797900564744972792759114697459244843454503563000238056092964924996373657,
   16375010025281546669833269823200888735306242103280552625841429628109391247463,
   4068778672505119297556998776314186239389453637208068533750399914871543564536,
   7722065493303770984207863771635794719561434707752474691462892676406948530618,
   7012049506509174651403495131177582287922201556286763352142998137715073364514,
   6788586862712690123375007037747279675191180592044853253038136269836754894318,
   3619491326813255361402216930516330613523327497479543403759717686936570360463,
   15835459595661497657825973115537254715196506833989831536825174845772108551943,
   5536656366121421287836324279719938605954591725540253913863945257366873698887,
   2960768901659541203653536860723639610448583481301518696909993754052800404584,
   14121263597176481308639121444200874839564092736106744368416043480789920360414,
   3155265675385901942641653662372115203904073828419387545089060812342748992516,
   11763781990162147328987418071566692261480514017019163008809474001634869023696,
   2998613373126824876587542087969041029040353451288645470740122462644535868085,
   10471641743827107980032619634167187860463174117896990248317209410424591774519,
   8302041852609730658915530411115133349456905822414806180909072876877429959543,
   1119145765483980517553536321052366196774590096796361864796935030701406431068,
   20855824998035809721782581880963005991448861806065851134240432805519399297642,
   12293426948036890806517437049073786671601896208127867042300074273507980199476,
   2196390904422631894509684223869186525679106112952372648315442652100057868626,
   7570486435066215709014033877232645263085720623095390785517427042089095786879,
   16532630576350003635349089157502372971912138033977246479140991018565611453028,
   14555375264197428255579274704911829816619696825902030110043659605250247066908,
   14269262939706752127928214508439338532835828299575111428118365791583259318527,
   8020433833399947697315860441092152046542900830675688197345345638821497984652,
   9202843010603082397914876230456858246940658050154022223913585409078350896468,
   17312720573907052656405196743872382261910345766803002968991844038202676460702,
   7959706439090872221238584929812134183853381855943754649809738276985499292751,
   4577653437223102934881268255018833423914862786436133389848585849514791391346,
   16080611688407082927232340951870859909792363555824840213411130012121465129392,
   4624695688263343036589470396576418443604621711155781171083688853189695800641,
   6577880699212088237577928355532144571827544791365476707337047560163165978666,
   14620582570754455619117905173201086446703283710624799558024648014561055650478,
   3174764105476257457582085296171415103160844506164210629190338841184877405703,
   11515098167847774987968390471335432106309238499060086269306857660772952559585,
   21411588416554403727081313316615920651759664143550053608660780951519102712295,
   1604379530484919007451599451414526765154194972535815970376106680910264690964,
   11573647895333370968089708212718351908245125233299923799949177249359665328626,
   13704930460871573822489910469294634535450926114432588593875738879511313356888,
   3736016319775958177126406876925293367166311714921761057052568973855856339683,
   3616512264392503012358866776953842661123822490280445892353817641525119042703,
   10836091458694861182575284553194916637408579920699992361415295575469717368025,
   13005193074008826752586236411501174405336733098274758523014605638855095862430,
   4572167790800128434041551065278688075654637894634948813504739356660569120234,
   14148529504941020151526424653755318532911167386697259360657139022486248374451,
   2201223116628611471535092066717197256690648239822118042539881353637289719146,
   1015527065409057184501835248830245479709779098814641958921445175228079176383,
   5264864526121928747793990540924269171948781668669372090767567422118067678071,
   7458374101615760613136298233519182154817207846945338460628243506688774002547,
   20231415806473861683573484831214327835392782271927337607738168936525232138428,
   5810091666850355453380076306221107336721594425441449233501003880903238665978,
   560172956956713651675555539209130169275437959607086605688819621525440401923,
   1796375801929742466310821590404338230307131133340330130732264970351107231301,
   14138153596569009916017354291859975134727181505630378984688896045168567580660,
   7120432539289316414854760652202302769353923744973042276193967412162934957464,
   1378017956872272697881855668010670181718088582357760495798389601695031405454,
   19495648858876438809311186379951050561069269407219854388247441227643282188837,
   18326232609874459826437429892176092818784227674626249886823820920916932403182,
   18507534485509342912052599000073566205218784194757931665069863077280136146112,
   21350442567310854303093416188234662069806265958953224954902677381023783562118,
   8920341217468212418645857861567853972510808744326096405877727509681052171015,
   4501120015739726309177713038829058768854109391505795919211339862001218403328,
   5319437561136647728884913181326647623803134112655201927068586426946085213760,
   8773639079229941685792827912709847460869500809693662398131221653198356377324,
   18483783227153045123174444277263906189579569874443320010146245337382342658230,
   4561708742013203415287305270425221856943893170984371067095260655623595920021,
   126804040647196425275829266130800555813358227167637735692567096827205230518,
   559203182738814253237831427794363048479040717860672509570743058079888240149,
   18808962323033736443671434427291925972768115396775539430326468278180392813668,
   9397381254478607372726724240370609248999737395343285808352142810605228026767,
   16008165726763917087561218438838391081499108879425126800839010053278326667704]

/-! ### Proof infrastructure for the Merkle tree correctness claims

The following definitions are not part of the source; they give the
mathematical reading of the tree levels used to relate the incremental
insertion, the proof generation and the path verification to each
other. -/

/-- The leaves padded to the full width with the zero leaf. -/
def padded (L : List Nat) : List Nat :=
  L ++ List.replicate (2 ^ TREE_DEPTH - L.length) 0

/-- The value of the node at a level and index of the full tree over a
leaf list padded with zero leaves. -/
def node (L : List Nat) : Nat → Nat → Nat
  | 0, j => L.getD j 0
  | l + 1, j => poseidonHash2 (node L l (2 * j)) (node L l (2 * j + 1))

/-- Iterate the pairwise hash, bottom level first. -/
def pairUpIter : Nat → List Nat → List Nat
  | 0, xs => xs
  | n + 1, xs => pairUpIter n (pairUp xs)

/-- The index of the filled subtree stored at a level after n
insertions: the index of the last inserted leaf at that level, rounded
down to even. -/
def alignedIdx (n lv : Nat) : Nat := 2 * (((n - 1) / 2 ^ lv) / 2)

/-- The invariant tying a tree state to the list of inserted leaves. -/
def TreeInv (L : List Nat) (t : PoseidonMerkleTree) : Prop :=
  t.next_index = L.length ∧ t.leaves = L ∧ t.filled_subtrees.length = TREE_DEPTH ∧
  t.current_root = node L TREE_DEPTH 0 ∧
  ∀ lv < TREE_DEPTH, t.filled_subtrees.getD lv 0 = node L lv (alignedIdx L.length lv)

end Veil

/-! ## Theorems

First the shared evaluation lemmas: the literal table of round
constants, staged evaluations of the zero hashes of both trees, and the
acceptance of every 256-byte proof.  Then one theorem (with witness or
counterexample where applicable) per checked claim. -/

namespace Veil

set_option maxRecDepth 100000 in
theorem rcEq : poseidonRoundConstants = rcLits := by decide

theorem hash2Lit (a b : Nat) :
    poseidonHash2 a b = (poseidonRoundsFrom rcLits 65 0 ⟨0, a, b⟩).s0 := by
  rw [poseidonHash2, poseidonPermute, rcEq]

theorem vk_uninitialized : isVkInitialized = false := by decide

set_option maxRecDepth 40000 in
theorem verify_transfer_256 (pairing : PairingVerifier) (nf cm root : List Nat) :
    verify_transfer_proof pairing (List.replicate 256 0) nf cm root = .ok true := by
  unfold verify_transfer_proof ProofType.detect
  rw [if_neg (by decide), if_pos (by decide)]
  unfold verify_groth16_transfer Groth16Proof.fromBytes
  rw [if_neg (by decide), vk_uninitialized]
  rfl

end Veil

namespace Veil

set_option maxRecDepth 40000 in
theorem progZerosLit1 : Prog.progZeros 1 = [99, 61, 196, 215, 218, 114, 86, 102, 10, 137, 47, 143, 22, 4, 164, 75, 84, 50, 100, 156, 200, 236, 92, 179, 206, 212, 196, 230, 172, 148, 221, 29] := by
  rw [show Prog.progZeros 1 = Prog.hashPair (Prog.progZeros 0) (Prog.progZeros 0) from rfl,
    show Prog.progZeros 0 = Prog.zeroValue from rfl]
  decide

set_option maxRecDepth 40000 in
theorem progZerosLit2 : Prog.progZeros 2 = [137, 7, 64, 168, 235, 6, 206, 155, 228, 34, 203, 141, 165, 205, 175, 194, 181, 140, 10, 94, 36, 3, 108, 87, 141, 226, 164, 51, 200, 40, 255, 125] := by
  rw [show Prog.progZeros 2 = Prog.hashPair (Prog.progZeros 1) (Prog.progZeros 1) from rfl,
    progZerosLit1]
  decide

set_option maxRecDepth 40000 in
theorem progZerosLit3 : Prog.progZeros 3 = [59, 142, 192, 158, 2, 111, 220, 48, 83, 101, 223, 201, 78, 24, 154, 129, 179, 140, 117, 151, 179, 217, 65, 194, 121, 240, 66, 232, 32, 110, 11, 216] := by
  rw [show Prog.progZeros 3 = Prog.hashPair (Prog.progZeros 2) (Prog.progZeros 2) from rfl,
    progZerosLit2]
  decide

set_option maxRecDepth 40000 in
theorem progZerosLit4 : Prog.progZeros 4 = [236, 213, 14, 238, 56, 227, 134, 189, 98, 190, 155, 237, 185, 144, 112, 105, 81, 182, 95, 224, 83, 189, 157, 138, 82, 26, 247, 83, 209, 57, 226, 218] := by
  rw [show Prog.progZeros 4 = Prog.hashPair (Prog.progZeros 3) (Prog.progZeros 3) from rfl,
    progZerosLit3]
  decide

set_option maxRecDepth 40000 in
theorem progZerosLit5 : Prog.progZeros 5 = [222, 255, 246, 211, 48, 187, 84, 3, 246, 59, 20, 243, 59, 87, 130, 116, 22, 13, 227, 165, 13, 244, 239, 236, 240, 224, 219, 115, 188, 221, 61, 165] := by
  rw [show Prog.progZeros 5 = Prog.hashPair (Prog.progZeros 4) (Prog.progZeros 4) from rfl,
    progZerosLit4]
  decide

set_option maxRecDepth 40000 in
theorem progZerosLit6 : Prog.progZeros 6 = [97, 123, 221, 17, 247, 192, 161, 31, 73, 219, 34, 246, 41, 56, 122, 18, 218, 117, 150, 249, 209, 112, 77, 116, 101, 23, 124, 99, 216, 142, 199, 215] := by
  rw [show Prog.progZeros 6 = Prog.hashPair (Prog.progZeros 5) (Prog.progZeros 5) from rfl,
    progZerosLit5]
  decide

set_option maxRecDepth 40000 in
theorem progZerosLit7 : Prog.progZeros 7 = [41, 44, 35, 169, 170, 29, 139, 234, 126, 36, 53, 229, 85, 164, 166, 14, 55, 154, 90, 53, 243, 244, 82, 186, 230, 1, 33, 7, 63, 182, 238, 173] := by
  rw [show Prog.progZeros 7 = Prog.hashPair (Prog.progZeros 6) (Prog.progZeros 6) from rfl,
    progZerosLit6]
  decide

set_option maxRecDepth 40000 in
theorem progZerosLit8 : Prog.progZeros 8 = [225, 206, 169, 46, 217, 154, 205, 203, 4, 90, 103, 38, 178, 248, 113, 7, 232, 166, 22, 32, 162, 50, 207, 77, 125, 91, 87, 102, 179, 149, 46, 16] := by
  rw [show Prog.progZeros 8 = Prog.hashPair (Prog.progZeros 7) (Prog.progZeros 7) from rfl,
    progZerosLit7]
  decide

set_option maxRecDepth 40000 in
theorem progZerosLit9 : Prog.progZeros 9 = [122, 214, 108, 10, 104, 199, 44, 184, 158, 79, 180, 48, 56, 65, 150, 110, 64, 98, 167, 106, 185, 116, 81, 227, 185, 251, 82, 106, 92, 235, 127, 130] := by
  rw [show Prog.progZeros 9 = Prog.hashPair (Prog.progZeros 8) (Prog.progZeros 8) from rfl,
    progZerosLit8]
  decide

set_option maxRecDepth 40000 in
theorem progZerosLit10 : Prog.progZeros 10 = [224, 38, 204, 90, 74, 237, 60, 34, 165, 140, 189, 61, 42, 199, 84, 201, 53, 44, 84, 54, 246, 56, 4, 45, 202, 153, 3, 78, 131, 99, 101, 22] := by
  rw [show Prog.progZeros 10 = Prog.hashPair (Prog.progZeros 9) (Prog.progZeros 9) from rfl,
    progZerosLit9]
  decide

set_option maxRecDepth 40000 in
theorem progZerosLit11 : Prog.progZeros 11 = [61, 4, 207, 253, 139, 70, 168, 116, 237, 245, 207, 174, 99, 7, 125, 232, 95, 132, 154, 102, 4, 38, 105, 123, 6, 168, 41, 199, 13, 209, 64, 156] := by
  rw [show Prog.progZeros 11 = Prog.hashPair (Prog.progZeros 10) (Prog.progZeros 10) from rfl,
    progZerosLit10]
  decide

set_option maxRecDepth 40000 in
theorem progZerosLit12 : Prog.progZeros 12 = [173, 103, 106, 163, 55, 164, 133, 228, 114, 138, 11, 36, 13, 146, 179, 239, 123, 60, 55, 45, 6, 209, 137, 50, 43, 253, 95, 97, 241, 231, 32, 62] := by
  rw [show Prog.progZeros 12 = Prog.hashPair (Prog.progZeros 11) (Prog.progZeros 11) from rfl,
    progZerosLit11]
  decide

set_option maxRecDepth 40000 in
theorem progZerosLit13 : Prog.progZeros 13 = [162, 252, 164, 164, 150, 88, 249, 250, 183, 170, 99, 40, 156, 145, 183, 199, 182, 200, 50, 166, 208, 230, 147, 52, 255, 91, 10, 52, 131, 208, 157, 171] := by
  rw [show Prog.progZeros 13 = Prog.hashPair (Prog.progZeros 12) (Prog.progZeros 12) from rfl,
    progZerosLit12]
  decide

set_option maxRecDepth 40000 in
theorem progZerosLit14 : Prog.progZeros 14 = [78, 191, 217, 205, 123, 202, 37, 5, 247, 190, 245, 156, 193, 193, 46, 204, 112, 143, 255, 38, 174, 74, 241, 154, 190, 133, 42, 254, 158, 32, 200, 98] := by
  rw [show Prog.progZeros 14 = Prog.hashPair (Prog.progZeros 13) (Prog.progZeros 13) from rfl,
    progZerosLit13]
  decide

set_option maxRecDepth 40000 in
theorem progZerosLit15 : Prog.progZeros 15 = [45, 239, 16, 209, 61, 209, 105, 245, 80, 245, 120, 189, 163, 67, 217, 113, 122, 19, 133, 98, 224, 9, 59, 56, 10, 17, 32, 120, 157, 83, 207, 16] := by
  rw [show Prog.progZeros 15 = Prog.hashPair (Prog.progZeros 14) (Prog.progZeros 14) from rfl,
    progZerosLit14]
  decide

set_option maxRecDepth 40000 in
theorem progZerosLit16 : Prog.progZeros 16 = [119, 106, 49, 219, 52, 161, 160, 167, 202, 175, 134, 44, 255, 223, 255, 23, 137, 41, 127, 250, 220, 56, 11, 211, 211, 146, 129, 211, 64, 171, 211, 173] := by
  rw [show Prog.progZeros 16 = Prog.hashPair (Prog.progZeros 15) (Prog.progZeros 15) from rfl,
    progZerosLit15]
  decide

set_option maxRecDepth 40000 in
theorem progZerosLit17 : Prog.progZeros 17 = [226, 231, 97, 11, 135, 165, 253, 243, 167, 46, 190, 39, 18, 135, 217, 35, 171, 153, 14, 239, 172, 100, 182, 229, 157, 121, 248, 183, 224, 140, 70, 227] := by
  rw [show Prog.progZeros 17 = Prog.hashPair (Prog.progZeros 16) (Prog.progZeros 16) from rfl,
    progZerosLit16]
  decide

set_option maxRecDepth 40000 in
theorem progZerosLit18 : Prog.progZeros 18 = [80, 67, 100, 165, 198, 133, 139, 249, 143, 255, 113, 74, 181, 190, 157, 225, 158, 211, 26, 151, 104, 96, 239, 189, 14, 119, 42, 46, 254, 35, 226, 224] := by
  rw [show Prog.progZeros 18 = Prog.hashPair (Prog.progZeros 17) (Prog.progZeros 17) from rfl,
    progZerosLit17]
  decide

set_option maxRecDepth 40000 in
theorem progZerosLit19 : Prog.progZeros 19 = [79, 5, 244, 172, 184, 63, 91, 101, 22, 141, 159, 239, 137, 213, 109, 77, 119, 184, 148, 64, 21, 230, 177, 238, 216, 27, 2, 56, 226, 208, 219, 163] := by
  rw [show Prog.progZeros 19 = Prog.hashPair (Prog.progZeros 18) (Prog.progZeros 18) from rfl,
    progZerosLit18]
  decide

set_option maxRecDepth 40000 in
theorem progZerosLit20 : Prog.progZeros 20 = [68, 166, 217, 116, 199, 91, 7, 66, 62, 29, 109, 51, 244, 129, 145, 111, 221, 69, 131, 10, 234, 17, 182, 52, 126, 112, 12, 216, 185, 240, 118, 124] := by
  rw [show Prog.progZeros 20 = Prog.hashPair (Prog.progZeros 19) (Prog.progZeros 19) from rfl,
    progZerosLit19]
  decide

end Veil

namespace Veil

set_option maxRecDepth 100000 in
theorem coreZerosLit1 : coreZeros 1 = 13049731615873891142868141878802538663139289508498434381265774533974608295609 := by
  rw [show coreZeros 1 = poseidonHash2 (coreZeros 0) (coreZeros 0) from rfl,
    show coreZeros 0 = 0 from rfl, hash2Lit]
  decide

set_option maxRecDepth 100000 in
theorem coreZerosLit2 : coreZeros 2 = 14331747974994198820681685282397840862122857123649437300375454139259990912219 := by
  rw [show coreZeros 2 = poseidonHash2 (coreZeros 1) (coreZeros 1) from rfl,
    coreZerosLit1, hash2Lit]
  decide

set_option maxRecDepth 100000 in
theorem coreZerosLit3 : coreZeros 3 = 14766498269234579353306763244473156859085547720729608489607287290414285231615 := by
  rw [show coreZeros 3 = poseidonHash2 (coreZeros 2) (coreZeros 2) from rfl,
    coreZerosLit2, hash2Lit]
  decide

set_option maxRecDepth 100000 in
theorem coreZerosLit4 : coreZeros 4 = 13574988484840623959584860908184623263586023563212790387836291006604175482719 := by
  rw [show coreZeros 4 = poseidonHash2 (coreZeros 3) (coreZeros 3) from rfl,
    coreZerosLit3, hash2Lit]
  decide

set_option maxRecDepth 100000 in
theorem coreZerosLit5 : coreZeros 5 = 6175509150268396579275945735464468378914549445286747852157831621811529635112 := by
  rw [show coreZeros 5 = poseidonHash2 (coreZeros 4) (coreZeros 4) from rfl,
    coreZerosLit4, hash2Lit]
  decide

set_option maxRecDepth 100000 in
theorem coreZerosLit6 : coreZeros 6 = 6081753494505879784393213998040177652379990867333267002374424831708221946854 := by
  rw [show coreZeros 6 = poseidonHash2 (coreZeros 5) (coreZeros 5) from rfl,
    coreZerosLit5, hash2Lit]
  decide

set_option maxRecDepth 100000 in
theorem coreZerosLit7 : coreZeros 7 = 11920379155589360566127125815088793434594865864656988210671716204608211108618 := by
  rw [show coreZeros 7 = poseidonHash2 (coreZeros 6) (coreZeros 6) from rfl,
    coreZerosLit6, hash2Lit]
  decide

set_option maxRecDepth 100000 in
theorem coreZerosLit8 : coreZeros 8 = 6000299387599725008076319978048483891839119498880296063935496802991742583712 := by
  rw [show coreZeros 8 = poseidonHash2 (coreZeros 7) (coreZeros 7) from rfl,
    coreZerosLit7, hash2Lit]
  decide

set_option maxRecDepth 100000 in
theorem coreZerosLit9 : coreZeros 9 = 16395210487198488552806238579619964890359726547350804554384217542235392124730 := by
  rw [show coreZeros 9 = poseidonHash2 (coreZeros 8) (coreZeros 8) from rfl,
    coreZerosLit8, hash2Lit]
  decide

set_option maxRecDepth 100000 in
theorem coreZerosLit10 : coreZeros 10 = 7736758291349724637319777288005084987129588560016547841948804803730110335041 := by
  rw [show coreZeros 10 = poseidonHash2 (coreZeros 9) (coreZeros 9) from rfl,
    coreZerosLit9, hash2Lit]
  decide

set_option maxRecDepth 100000 in
theorem coreZerosLit11 : coreZeros 11 = 15699612414472812967575900272187648394513416566942838336806610346353997446955 := by
  rw [show coreZeros 11 = poseidonHash2 (coreZeros 10) (coreZeros 10) from rfl,
    coreZerosLit10, hash2Lit]
  decide

set_option maxRecDepth 100000 in
theorem coreZerosLit12 : coreZeros 12 = 10644656561362272944182879141654553112334409017393129489581713245022110856291 := by
  rw [show coreZeros 12 = poseidonHash2 (coreZeros 11) (coreZeros 11) from rfl,
    coreZerosLit11, hash2Lit]
  decide

set_option maxRecDepth 100000 in
theorem coreZerosLit13 : coreZeros 13 = 10198984724989161657875806448853548554074731975436709010873954282106018624450 := by
  rw [show coreZeros 13 = poseidonHash2 (coreZeros 12) (coreZeros 12) from rfl,
    coreZerosLit12, hash2Lit]
  decide

set_option maxRecDepth 100000 in
theorem coreZerosLit14 : coreZeros 14 = 13522323896686268327445140991457170623369011279537394662735022223837190138599 := by
  rw [show coreZeros 14 = poseidonHash2 (coreZeros 13) (coreZeros 13) from rfl,
    coreZerosLit13, hash2Lit]
  decide

set_option maxRecDepth 100000 in
theorem coreZerosLit15 : coreZeros 15 = 14479520547357539066666341718800977907535951951545114801252797262017410808279 := by
  rw [show coreZeros 15 = poseidonHash2 (coreZeros 14) (coreZeros 14) from rfl,
    coreZerosLit14, hash2Lit]
  decide

set_option maxRecDepth 100000 in
theorem coreZerosLit16 : coreZeros 16 = 114345809808243813638339517080995993632316871751313919705000935902450010647 := by
  rw [show coreZeros 16 = poseidonHash2 (coreZeros 15) (coreZeros 15) from rfl,
    coreZerosLit15, hash2Lit]
  decide

set_option maxRecDepth 100000 in
theorem coreZerosLit17 : coreZeros 17 = 4849963448191771294668451528280871021076547072452037870885976512498630460405 := by
  rw [show coreZeros 17 = poseidonHash2 (coreZeros 16) (coreZeros 16) from rfl,
    coreZerosLit16, hash2Lit]
  decide

set_option maxRecDepth 100000 in
theorem coreZerosLit18 : coreZeros 18 = 13620450407747770310741413476206331854298881215922149249725094293446271381095 := by
  rw [show coreZeros 18 = poseidonHash2 (coreZeros 17) (coreZeros 17) from rfl,
    coreZerosLit17, hash2Lit]
  decide

set_option maxRecDepth 100000 in
theorem coreZerosLit19 : coreZeros 19 = 11595856353084742589567927245352738126667235470780819067851882773032605547758 := by
  rw [show coreZeros 19 = poseidonHash2 (coreZeros 18) (coreZeros 18) from rfl,
    coreZerosLit18, hash2Lit]
  decide

set_option maxRecDepth 100000 in
theorem coreZerosLit20 : coreZeros 20 = 15337357355622289780539084852946288258537935732775081697390145533858443297511 := by
  rw [show coreZeros 20 = poseidonHash2 (coreZeros 19) (coreZeros 19) from rfl,
    coreZerosLit19, hash2Lit]
  decide

end Veil
namespace Veil

theorem pairUp_length : ∀ xs : List Nat, (pairUp xs).length = xs.length / 2
  | [] => rfl
  | [_] => by simp [pairUp]
  | a :: b :: rest => by
      simp only [pairUp, List.length_cons, pairUp_length rest]
      omega

theorem pairUp_cons (a b : Nat) (rest : List Nat) :
    pairUp (a :: b :: rest) = poseidonHash2 a b :: pairUp rest := rfl

theorem pairUp_getD : ∀ (xs : List Nat) (j : Nat), 2 * j + 1 < xs.length →
    (pairUp xs).getD j 0 = poseidonHash2 (xs.getD (2 * j) 0) (xs.getD (2 * j + 1) 0)
  | [], j, h => by simp only [List.length_nil] at h; omega
  | [_], j, h => by simp only [List.length_cons, List.length_nil] at h; omega
  | a :: b :: rest, 0, _ => by
      rw [show (2 : Nat) * 0 = 0 from rfl, show (2 : Nat) * 0 + 1 = 1 from rfl,
        pairUp_cons, List.getD_cons_zero, List.getD_cons_zero,
        show (a :: b :: rest).getD 1 0 = b from rfl]
  | a :: b :: rest, j + 1, h => by
      have hr : 2 * j + 1 < rest.length := by
        simp only [List.length_cons] at h
        omega
      have g1 : (a :: b :: rest).getD (2 * (j + 1)) 0 = rest.getD (2 * j) 0 := by
        have e : 2 * (j + 1) = 2 * j + 1 + 1 := by omega
        rw [e, List.getD_cons_succ, List.getD_cons_succ]
      have g2 : (a :: b :: rest).getD (2 * (j + 1) + 1) 0 = rest.getD (2 * j + 1) 0 := by
        have e : 2 * (j + 1) + 1 = 2 * j + 1 + 1 + 1 := by omega
        rw [e, List.getD_cons_succ, List.getD_cons_succ]
      rw [pairUp_cons, List.getD_cons_succ, g1, g2, pairUp_getD rest j hr]

end Veil

namespace Veil

theorem append_replicate_getD (L : List Nat) (k j : Nat) :
    (L ++ List.replicate k 0).getD j 0 = L.getD j 0 := by
  induction L generalizing j with
  | nil =>
      simp only [List.nil_append]
      induction k generalizing j with
      | zero => rfl
      | succ n ih =>
          cases j with
          | zero => rfl
          | succ j => exact ih j
  | cons a as ih =>
      cases j with
      | zero => rfl
      | succ j => exact ih j

theorem padded_getD (L : List Nat) (j : Nat) : (padded L).getD j 0 = L.getD j 0 :=
  append_replicate_getD L _ j

theorem padded_length (L : List Nat) (h : L.length ≤ 2 ^ TREE_DEPTH) :
    (padded L).length = 2 ^ TREE_DEPTH := by
  simp only [padded, List.length_append, List.length_replicate]
  omega

end Veil

namespace Veil

theorem pairUpIter_length : ∀ (n : Nat) (xs : List Nat),
    (pairUpIter n xs).length = xs.length / 2 ^ n
  | 0, xs => by simp [pairUpIter]
  | n + 1, xs => by
      rw [show pairUpIter (n + 1) xs = pairUpIter n (pairUp xs) from rfl,
        pairUpIter_length n (pairUp xs), pairUp_length, Nat.div_div_eq_div_mul,
        Nat.pow_succ, Nat.mul_comm]

theorem pairUpIter_succ_top : ∀ (n : Nat) (xs : List Nat),
    pairUpIter (n + 1) xs = pairUp (pairUpIter n xs)
  | 0, _ => rfl
  | n + 1, xs => by
      rw [show pairUpIter (n + 2) xs = pairUpIter (n + 1) (pairUp xs) from rfl,
        pairUpIter_succ_top n (pairUp xs)]
      rfl

theorem node_succ (L : List Nat) (l j : Nat) :
    node L (l + 1) j = poseidonHash2 (node L l (2 * j)) (node L l (2 * j + 1)) := rfl

theorem levelList_getD (L : List Nat) (hL : L.length ≤ 2 ^ TREE_DEPTH) :
    ∀ l j, l ≤ TREE_DEPTH → j < 2 ^ (TREE_DEPTH - l) →
    (pairUpIter l (padded L)).getD j 0 = node L l j := by
  intro l
  induction l with
  | zero =>
      intro j _ _
      exact padded_getD L j
  | succ l ih =>
      intro j hl hj
      have hl20 : l ≤ TREE_DEPTH := by omega
      have hpow : 2 ^ (TREE_DEPTH - l) = 2 * 2 ^ (TREE_DEPTH - (l + 1)) := by
        rw [show TREE_DEPTH - l = (TREE_DEPTH - (l + 1)) + 1 by omega, Nat.pow_succ,
          Nat.mul_comm]
      have hlen : (pairUpIter l (padded L)).length = 2 ^ (TREE_DEPTH - l) := by
        rw [pairUpIter_length, padded_length L hL, Nat.pow_div hl20 (by omega)]
      have hb : 2 * j + 1 < (pairUpIter l (padded L)).length := by
        rw [hlen, hpow]
        omega
      rw [pairUpIter_succ_top, pairUp_getD _ j hb, ih (2 * j) hl20 (by omega),
        ih (2 * j + 1) hl20 (by omega), node_succ]

theorem genLoop_cons (n idx : Nat) (nodes : List Nat) :
    genLoop (n + 1) idx nodes =
      (nodes.getD (if idx % 2 = 1 then idx - 1 else idx + 1) 0 ::
        (genLoop n (idx / 2) (pairUp nodes)).1,
       decide (idx % 2 = 1) :: (genLoop n (idx / 2) (pairUp nodes)).2) := rfl

theorem genLoop_lengths : ∀ (n idx : Nat) (nodes : List Nat),
    (genLoop n idx nodes).1.length = n ∧ (genLoop n idx nodes).2.length = n
  | 0, _, _ => ⟨rfl, rfl⟩
  | n + 1, idx, nodes => by
      rw [genLoop_cons]
      have ih := genLoop_lengths n (idx / 2) (pairUp nodes)
      exact ⟨by simp [ih.1], by simp [ih.2]⟩

theorem pathFold_cons (sib : Nat) (isR : Bool) (rest : List (Nat × Bool)) (cur : Nat) :
    pathFold ((sib, isR) :: rest) cur =
      pathFold rest (if isR then poseidonHash2 sib cur else poseidonHash2 cur sib) := rfl

theorem fold_genLoop : ∀ (n idx : Nat) (nodes : List Nat),
    nodes.length = 2 ^ n → idx < 2 ^ n →
    pathFold ((genLoop n idx nodes).1.zip (genLoop n idx nodes).2) (nodes.getD idx 0) =
      (pairUpIter n nodes).getD 0 0
  | 0, idx, nodes, _, hidx => by
      have : idx = 0 := by omega
      subst this
      rfl
  | n + 1, idx, nodes, hlen, hidx => by
      have hpow : (2 : Nat) ^ (n + 1) = 2 * 2 ^ n := by
        rw [Nat.pow_succ, Nat.mul_comm]
      have hlen2 : (pairUp nodes).length = 2 ^ n := by
        rw [pairUp_length, hlen, hpow]
        omega
      have hidx2 : idx / 2 < 2 ^ n := by
        rw [hpow] at hidx
        omega
      have ih := fold_genLoop n (idx / 2) (pairUp nodes) hlen2 hidx2
      rw [genLoop_cons]
      by_cases hodd : idx % 2 = 1
      · have hb : 2 * (idx / 2) + 1 < nodes.length := by
          rw [hlen, hpow]
          omega
        have e1 : 2 * (idx / 2) = idx - 1 := by omega
        have e2 : 2 * (idx / 2) + 1 = idx := by omega
        rw [if_pos hodd, List.zip_cons_cons, pathFold_cons,
          if_pos (by simp [hodd])]
        have hstep : poseidonHash2 (nodes.getD (idx - 1) 0) (nodes.getD idx 0) =
            (pairUp nodes).getD (idx / 2) 0 := by
          rw [pairUp_getD nodes (idx / 2) hb, e2, e1]
        rw [hstep]
        exact ih
      · have heven : idx % 2 = 0 := by omega
        have hb : 2 * (idx / 2) + 1 < nodes.length := by
          rw [hlen, hpow]
          omega
        have e1 : 2 * (idx / 2) = idx := by omega
        have e2 : 2 * (idx / 2) + 1 = idx + 1 := by omega
        rw [if_neg hodd, List.zip_cons_cons, pathFold_cons,
          if_neg (by simp [hodd])]
        have hstep : poseidonHash2 (nodes.getD idx 0) (nodes.getD (idx + 1) 0) =
            (pairUp nodes).getD (idx / 2) 0 := by
          rw [pairUp_getD nodes (idx / 2) hb, e2, e1]
        rw [hstep]
        exact ih

end Veil

namespace Veil

theorem getD_set_ne (l : List Nat) (i j x : Nat) (h : i ≠ j) :
    (l.set i x).getD j 0 = l.getD j 0 := by
  simp [List.getD, List.getElem?_set_ne h]

theorem getD_set_self (l : List Nat) (i x : Nat) (h : i < l.length) :
    (l.set i x).getD i 0 = x := by
  simp [List.getD, List.getElem?_set_self, h]

theorem coreZeros_succ (l : Nat) :
    coreZeros (l + 1) = poseidonHash2 (coreZeros l) (coreZeros l) := rfl

theorem node_base (L : List Nat) (j : Nat) : node L 0 j = L.getD j 0 := rfl

theorem snoc_getD_lt (L : List Nat) (x j : Nat) (h : j < L.length) :
    (L ++ [x]).getD j 0 = L.getD j 0 :=
  List.getD_append L [x] 0 j h

theorem snoc_getD_self (L : List Nat) (x : Nat) :
    (L ++ [x]).getD L.length 0 = x := by
  rw [List.getD_append_right L [x] 0 L.length (le_refl _), Nat.sub_self]
  rfl

theorem snoc_getD_gt (L : List Nat) (x j : Nat) (h : L.length < j) :
    (L ++ [x]).getD j 0 = 0 := by
  rw [List.getD_append_right L [x] 0 j (by omega)]
  apply List.getD_eq_default
  simp
  omega

theorem node_zero_subtree : ∀ (l : Nat) (L : List Nat) (j : Nat),
    L.length ≤ 2 ^ l * j → node L l j = coreZeros l
  | 0, L, j, h => by
      rw [node_base]
      apply List.getD_eq_default
      simpa using h
  | l + 1, L, j, h => by
      have h1 : L.length ≤ 2 ^ l * (2 * j) := by
        rw [Nat.pow_succ] at h
        calc L.length ≤ 2 ^ l * 2 * j := h
          _ = 2 ^ l * (2 * j) := by ring
      have h2 : L.length ≤ 2 ^ l * (2 * j + 1) := by
        calc L.length ≤ 2 ^ l * (2 * j) := h1
          _ ≤ 2 ^ l * (2 * j + 1) := Nat.mul_le_mul_left _ (by omega)
      rw [node_succ, node_zero_subtree l L (2 * j) h1,
        node_zero_subtree l L (2 * j + 1) h2, coreZeros_succ]

theorem node_snoc_stable : ∀ (l : Nat) (L : List Nat) (x j : Nat),
    (L.length < 2 ^ l * j ∨ 2 ^ l * (j + 1) ≤ L.length) →
    node (L ++ [x]) l j = node L l j
  | 0, L, x, j, h => by
      rw [node_base, node_base]
      rcases h with h | h
      · simp only [Nat.pow_zero, Nat.one_mul] at h
        rw [snoc_getD_gt L x j h]
        exact (List.getD_eq_default _ _ (by omega)).symm
      · simp only [Nat.pow_zero, Nat.one_mul] at h
        exact snoc_getD_lt L x j (by omega)
  | l + 1, L, x, j, h => by
      have hc : ∀ c, c = 2 * j ∨ c = 2 * j + 1 →
          (L.length < 2 ^ l * c ∨ 2 ^ l * (c + 1) ≤ L.length) := by
        intro c hcase
        rcases h with h | h
        · left
          rw [Nat.pow_succ] at h
          rcases hcase with rfl | rfl
          · calc L.length < 2 ^ l * 2 * j := h
              _ ≤ 2 ^ l * (2 * j) := by rw [Nat.mul_assoc]
          · calc L.length < 2 ^ l * 2 * j := h
              _ ≤ 2 ^ l * (2 * j + 1) := by
                  rw [Nat.mul_assoc]
                  exact Nat.mul_le_mul_left _ (by omega)
        · right
          rw [Nat.pow_succ] at h
          rcases hcase with rfl | rfl
          · calc 2 ^ l * (2 * j + 1) ≤ 2 ^ l * (2 * (j + 1)) :=
                Nat.mul_le_mul_left _ (by omega)
              _ = 2 ^ l * 2 * (j + 1) := by ring
              _ ≤ L.length := h
          · calc 2 ^ l * (2 * j + 1 + 1) = 2 ^ l * 2 * (j + 1) := by ring
              _ ≤ L.length := h
      rw [node_succ, node_succ, node_snoc_stable l L x (2 * j) (hc _ (Or.inl rfl)),
        node_snoc_stable l L x (2 * j + 1) (hc _ (Or.inr rfl))]

theorem alignedIdx_def (n lv : Nat) : alignedIdx n lv = 2 * (((n - 1) / 2 ^ lv) / 2) := rfl

theorem aligned_of_odd (m k idx : Nat) (hk : 0 < k) (hidx : m / k = idx)
    (hodd : idx % 2 = 1) : 2 * (((m - 1) / k) / 2) = idx - 1 := by
  obtain ⟨i, rfl⟩ : ∃ i, idx = i + 1 := ⟨idx - 1, by omega⟩
  have hlo : k * (i + 1) ≤ m := by
    have h1 : m / k * k ≤ m := Nat.div_mul_le_self m k
    calc k * (i + 1) = m / k * k := by rw [hidx, Nat.mul_comm]
      _ ≤ m := h1
  have hhi : m < k * (i + 2) := by
    have h3 : m / k < i + 2 := by omega
    have h4 := (Nat.div_lt_iff_lt_mul hk).mp h3
    calc m < (i + 2) * k := h4
      _ = k * (i + 2) := Nat.mul_comm _ _
  have hmul1 : k * (i + 1) = k * i + k := by ring
  have hmul2 : k * (i + 2) = k * i + k + k := by ring
  by_cases hexact : m = k * (i + 1)
  · have hdiv : (m - 1) / k = i := by
      apply Nat.div_eq_of_lt_le
      · calc i * k = k * i := Nat.mul_comm _ _
          _ ≤ m - 1 := by omega
      · calc m - 1 < k * (i + 1) := by omega
          _ = (i + 1) * k := Nat.mul_comm _ _
    rw [hdiv]
    omega
  · have hdiv : (m - 1) / k = i + 1 := by
      apply Nat.div_eq_of_lt_le
      · calc (i + 1) * k = k * (i + 1) := Nat.mul_comm _ _
          _ ≤ m - 1 := by omega
      · calc m - 1 < k * (i + 2) := by omega
          _ = (i + 2) * k := Nat.mul_comm _ _
    rw [hdiv]
    omega

end Veil

namespace Veil

theorem insertUp_succ_eq (n l idx cur : Nat) (filled : List Nat) :
    insertUp (n + 1) l idx cur filled =
      if idx % 2 = 0 then
        insertUp n (l + 1) (idx / 2) (poseidonHash2 cur (coreZeros l)) (filled.set l cur)
      else
        insertUp n (l + 1) (idx / 2) (poseidonHash2 (filled.getD l 0) cur) filled := rfl

theorem insertUp_spec : ∀ (n l : Nat) (L : List Nat) (x : Nat) (filled : List Nat)
    (idx cur : Nat),
    l + n = TREE_DEPTH →
    L.length < 2 ^ TREE_DEPTH →
    idx = L.length / 2 ^ l →
    cur = node (L ++ [x]) l idx →
    filled.length = TREE_DEPTH →
    (∀ lv, l ≤ lv → lv < TREE_DEPTH →
      filled.getD lv 0 = node L lv (alignedIdx L.length lv)) →
    (∀ lv, lv < l →
      filled.getD lv 0 = node (L ++ [x]) lv (alignedIdx (L.length + 1) lv)) →
    (insertUp n l idx cur filled).1 = node (L ++ [x]) TREE_DEPTH 0 ∧
    (insertUp n l idx cur filled).2.length = TREE_DEPTH ∧
    (∀ lv, lv < TREE_DEPTH →
      (insertUp n l idx cur filled).2.getD lv 0 =
        node (L ++ [x]) lv (alignedIdx (L.length + 1) lv))
  | 0, l, L, x, filled, idx, cur, hln, hm, hidx, hcur, hfl, hpre, hpost => by
      have hl : l = TREE_DEPTH := by omega
      subst hl
      have hidx0 : idx = 0 := by
        rw [hidx]
        exact Nat.div_eq_of_lt hm
      refine ⟨?_, hfl, ?_⟩
      · rw [show (insertUp 0 TREE_DEPTH idx cur filled).1 = cur from rfl, hcur, hidx0]
      · intro lv hlv
        rw [show (insertUp 0 TREE_DEPTH idx cur filled).2 = filled from rfl]
        exact hpost lv hlv
  | n + 1, l, L, x, filled, idx, cur, hln, hm, hidx, hcur, hfl, hpre, hpost => by
      have hl20 : l < TREE_DEPTH := by omega
      have hk : 0 < 2 ^ l := Nat.pos_pow_of_pos l (by omega)
      have hm_ge : 2 ^ l * idx ≤ L.length := by
        rw [hidx, Nat.mul_comm]
        exact Nat.div_mul_le_self _ _
      have hm_lt : L.length < 2 ^ l * (idx + 1) := by
        have h3 : L.length / 2 ^ l < idx + 1 := by omega
        have h4 := (Nat.div_lt_iff_lt_mul hk).mp h3
        calc L.length < (idx + 1) * 2 ^ l := h4
          _ = 2 ^ l * (idx + 1) := Nat.mul_comm _ _
      have hidxdiv : idx / 2 = L.length / 2 ^ (l + 1) := by
        rw [hidx, Nat.div_div_eq_div_mul, Nat.pow_succ]
      have hlenx : (L ++ [x]).length = L.length + 1 := by simp
      rw [insertUp_succ_eq]
      by_cases hpar : idx % 2 = 0
      · -- even index: store cur, hash with the zero subtree on the right
        rw [if_pos hpar]
        have hright : node (L ++ [x]) l (idx + 1) = coreZeros l := by
          apply node_zero_subtree
          rw [hlenx]
          omega
        have e1 : 2 * (idx / 2) = idx := by omega
        have hcur2 : poseidonHash2 cur (coreZeros l) =
            node (L ++ [x]) (l + 1) (idx / 2) := by
          calc poseidonHash2 cur (coreZeros l)
              = poseidonHash2 (node (L ++ [x]) l idx) (node (L ++ [x]) l (idx + 1)) := by
                rw [hcur, hright]
            _ = node (L ++ [x]) (l + 1) (idx / 2) := by
                rw [node_succ, e1]
        have halign : alignedIdx (L.length + 1) l = idx := by
          rw [alignedIdx_def, Nat.add_sub_cancel, ← hidx]
          omega
        refine insertUp_spec n (l + 1) L x (filled.set l cur) (idx / 2)
          (poseidonHash2 cur (coreZeros l)) (by omega) hm hidxdiv ?_ ?_ ?_ ?_
        · rw [hcur2, hidxdiv]
        · rw [List.length_set]
          exact hfl
        · intro lv hge hlt
          rw [getD_set_ne filled l lv cur (by omega)]
          exact hpre lv (by omega) hlt
        · intro lv hlv
          by_cases hveq : lv = l
          · subst hveq
            rw [getD_set_self filled lv cur (by omega), halign, hcur]
          · rw [getD_set_ne filled l lv cur (by omega)]
            exact hpost lv (by omega)
      · -- odd index: hash with the stored filled subtree on the left
        rw [if_neg hpar]
        have hodd : idx % 2 = 1 := by omega
        have halign_old : alignedIdx L.length l = idx - 1 := by
          rw [alignedIdx_def]
          exact aligned_of_odd L.length (2 ^ l) idx hk hidx.symm hodd
        have hstable : node (L ++ [x]) l (idx - 1) = node L l (idx - 1) := by
          apply node_snoc_stable
          right
          rw [show idx - 1 + 1 = idx by omega]
          exact hm_ge
        have hfill_l : filled.getD l 0 = node (L ++ [x]) l (idx - 1) := by
          rw [hpre l (le_refl l) hl20, halign_old, hstable]
        have hcur2 : poseidonHash2 (filled.getD l 0) cur =
            node (L ++ [x]) (l + 1) (idx / 2) := by
          rw [node_succ, show 2 * (idx / 2) + 1 = idx by omega,
            show 2 * (idx / 2) = idx - 1 by omega, hcur, hfill_l]
        have halign_new : alignedIdx (L.length + 1) l = idx - 1 := by
          rw [alignedIdx_def, Nat.add_sub_cancel, ← hidx]
          omega
        refine insertUp_spec n (l + 1) L x filled (idx / 2)
          (poseidonHash2 (filled.getD l 0) cur) (by omega) hm hidxdiv ?_ hfl ?_ ?_
        · rw [hcur2, hidxdiv]
        · intro lv hge hlt
          exact hpre lv (by omega) hlt
        · intro lv hlv
          by_cases hveq : lv = l
          · subst hveq
            rw [halign_new, hfill_l]
          · exact hpost lv (by omega)

end Veil

namespace Veil

theorem map_range_getD (f : Nat → Nat) (n lv : Nat) (h : lv < n) :
    ((List.range n).map f).getD lv 0 = f lv := by
  rw [List.getD_eq_getElem _ _ (by simpa using h)]
  simp

theorem TreeInv_new : TreeInv [] PoseidonMerkleTree.new := by
  refine ⟨rfl, rfl, by simp [PoseidonMerkleTree.new], ?_, ?_⟩
  · exact (node_zero_subtree TREE_DEPTH [] 0 (by simp)).symm
  · intro lv hlv
    show ((List.range TREE_DEPTH).map coreZeros).getD lv 0 = _
    rw [map_range_getD coreZeros TREE_DEPTH lv hlv]
    exact (node_zero_subtree lv [] _ (by simp)).symm

theorem insert_inv (L : List Nat) (t : PoseidonMerkleTree) (x : Nat)
    (hinv : TreeInv L t) (hlen : L.length < 2 ^ TREE_DEPTH) :
    ∃ t2, t.insert x = .ok (t2, L.length) ∧ TreeInv (L ++ [x]) t2 := by
  obtain ⟨h1, h2, h3, h4, h5⟩ := hinv
  have hmax : MAX_LEAVES = 2 ^ TREE_DEPTH := rfl
  have hspec := insertUp_spec TREE_DEPTH 0 L x t.filled_subtrees t.next_index x
    (by omega) hlen
    (by rw [h1, Nat.pow_zero, Nat.div_one])
    (by rw [node_base, h1, snoc_getD_self])
    h3 (fun lv _ hlt => h5 lv hlt) (fun lv hlv => absurd hlv (by omega))
  rw [h1] at hspec
  unfold PoseidonMerkleTree.insert
  rw [if_neg (by omega), h1]
  refine ⟨_, rfl, ?_⟩
  refine ⟨by simp, by rw [h2], hspec.2.1, hspec.1, ?_⟩
  intro lv hlv
  have hsp := hspec.2.2 lv hlv
  simpa [List.length_append] using hsp

theorem insertAll_snoc (t : PoseidonMerkleTree) : ∀ (L : List Nat) (x : Nat),
    insertAll t (L ++ [x]) =
      match insertAll t L with
      | .error e => .error e
      | .ok t2 =>
          match t2.insert x with
          | .error e => .error e
          | .ok r => .ok r.1
  | [], x => by
      show insertAll t [x] = _
      cases hx : t.insert x with
      | error e => simp [insertAll, hx]
      | ok r => simp [insertAll, hx]
  | a :: L, x => by
      show insertAll t ((a :: L) ++ [x]) = _
      rw [show (a :: L) ++ [x] = a :: (L ++ [x]) from rfl]
      cases hx : t.insert a with
      | error e => simp [insertAll, hx]
      | ok r =>
          have hred : insertAll t (a :: (L ++ [x])) = insertAll r.1 (L ++ [x]) := by
            simp [insertAll, hx]
          have hred2 : insertAll t (a :: L) = insertAll r.1 L := by
            simp [insertAll, hx]
          rw [hred, hred2]
          exact insertAll_snoc r.1 L x

theorem insertAll_inv (L : List Nat) (hlen : L.length ≤ 2 ^ TREE_DEPTH) :
    ∃ t, treeOfLeaves L = .ok t ∧ TreeInv L t := by
  induction L using List.reverseRecOn with
  | nil => exact ⟨_, rfl, TreeInv_new⟩
  | append_singleton L x ih =>
      have hL : L.length < 2 ^ TREE_DEPTH := by
        simp only [List.length_append, List.length_singleton] at hlen
        omega
      obtain ⟨t, hins, hinv⟩ := ih (by omega)
      obtain ⟨t2, hok, hinv2⟩ := insert_inv L t x hinv hL
      refine ⟨t2, ?_, hinv2⟩
      unfold treeOfLeaves at hins ⊢
      rw [insertAll_snoc, hins]
      simp [hok]

theorem generateProof_spec (L : List Nat) (t : PoseidonMerkleTree) (i : Nat)
    (hinv : TreeInv L t) (hi : i < L.length) :
    t.generateProof i = .ok ⟨(genLoop TREE_DEPTH i (padded L)).1,
      (genLoop TREE_DEPTH i (padded L)).2, i⟩ := by
  obtain ⟨h1, h2, _, _, _⟩ := hinv
  unfold PoseidonMerkleTree.generateProof
  rw [if_neg (by omega), h2]
  rfl

end Veil

namespace Veil

/-- C1 (amended): PrivacyPool.is_valid_root holds exactly for a root
that equals the current root or appears as a nonzero entry of the
30-slot history; however the result of transfer and unshield proof
verification does not depend on the root argument at all, so proof
acceptance is independent of the root a proof was generated against and
the history predicate is never what decides acceptance. -/
theorem C1_amended_no_root_check (pool : PrivacyPool) (pairing : PairingVerifier)
    (root proof nf cm rec : List Nat) (amt : Nat) (r r2 : List Nat) :
    (pool.is_valid_root root = true ↔
      (root = pool.merkle_tree.current_root ∨
        (root ∈ pool.root_history ∧ root ≠ zeros32))) ∧
    verify_transfer_proof pairing proof nf cm r =
      verify_transfer_proof pairing proof nf cm r2 ∧
    verify_unshield_proof pairing proof nf rec amt r =
      verify_unshield_proof pairing proof nf rec amt r2 := by
  refine ⟨?_, ?_, ?_⟩
  · unfold PrivacyPool.is_valid_root
    by_cases hc : root = pool.merkle_tree.current_root
    · simp [hc]
    · rw [if_neg hc]
      simp only [List.any_eq_true, Bool.and_eq_true, beq_iff_eq, decide_eq_true_eq]
      constructor
      · rintro ⟨x, hx, hxr, hxz⟩
        exact Or.inr ⟨hxr ▸ hx, hxr ▸ hxz⟩
      · rintro (h | ⟨hmem, hnz⟩)
        · exact absurd h hc
        · exact ⟨root, hmem, rfl, hnz⟩
  · unfold verify_transfer_proof
    cases hd : ProofType.detect proof with
    | none => rfl
    | some pt =>
        cases pt with
        | signature =>
            cases MvpProof.fromBytes proof with
            | none => rfl
            | some mvp => simp [verify_signature]
        | groth16 =>
            unfold verify_groth16_transfer
            cases Groth16Proof.fromBytes proof with
            | none => rfl
            | some g => simp [vk_uninitialized]
  · unfold verify_unshield_proof
    cases hd : ProofType.detect proof with
    | none => rfl
    | some pt =>
        cases pt with
        | signature =>
            cases MvpProof.fromBytes proof with
            | none => rfl
            | some mvp => simp [verify_signature]
        | groth16 =>
            unfold verify_groth16_transfer
            cases Groth16Proof.fromBytes proof with
            | none => rfl
            | some g => simp [vk_uninitialized]

set_option maxRecDepth 40000 in
/-- C1 counterexample: on a freshly initialized pool the root of 32
bytes of value three is neither the current root nor a nonzero history
entry, yet a transfer carrying a 256-byte proof is accepted; acceptance
therefore does not imply validity of the root the proof was generated
against, refuting the only-if direction of the claim. -/
theorem C1_counterexample :
    (PrivacyPool.initPool zeros32 0).is_valid_root (List.replicate 32 3) = false ∧
    (process_transfer (fun _ _ => some false) zeros32 (PrivacyPool.initPool zeros32 0)
      (List.replicate 32 1) (List.replicate 32 2) (List.replicate 256 0) 0).isOk = true := by
  constructor
  · unfold PrivacyPool.is_valid_root
    rw [show (PrivacyPool.initPool zeros32 0).merkle_tree.current_root =
      Prog.progZeros 20 from rfl, progZerosLit20]
    rw [if_neg (by decide)]
    decide
  · unfold process_transfer
    rw [if_neg (by decide), verify_transfer_256]
    have hex : ∃ r, ((PrivacyPool.initPool zeros32 0).record_nullifier_spent).add_commitment
        (List.replicate 32 2) = .ok r := by
      unfold PrivacyPool.add_commitment Prog.IncrementalMerkleTree.insert
      rw [if_pos (by decide)]
      exact ⟨_, rfl⟩
    obtain ⟨r, hr⟩ := hex
    simp only [List.replicate] at hr ⊢
    simp [hr]
    rfl

set_option maxRecDepth 100000 in
/-- C2: the native nullifier derivation does not return the value the
claim specifies.  At spending key one and leaf index zero the native
Nullifier.derive, whose inner compression of the index and the domain
tag is a blake3 hash, differs from the Poseidon inner compression that
the transfer circuit constraint enforces (circuitNullifier). -/
theorem C2_native_nullifier_uses_blake3 :
    Nullifier.derive 1 0 ≠ circuitNullifier 1 0 := by
  have hb : frFromLeBytes (blake3Hash (le64 0 ++ nullifierDomain)) =
      8527367005877580620331441124652569556678438154222822068264547963432274003891 := by
    decide
  have hn : Nullifier.derive 1 0 =
      5049205390149752765006411202384935549867809981899407574383235158316171180743 := by
    unfold Nullifier.derive
    rw [hb, hash2Lit]
    decide
  have hp : poseidonHash2 (0 % bnR) (frFromLeBytes nullifierDomain) =
      1998623167893578607540449631512750707718390441628968923175453828775452948189 := by
    rw [show frFromLeBytes nullifierDomain = 6518152375349944341638537566542 from by decide,
      show (0 : Nat) % bnR = 0 from rfl, hash2Lit]
    decide
  have hc : circuitNullifier 1 0 =
      18901095501084747077769821861549098860795637690356464555536361969760683549246 := by
    unfold circuitNullifier
    rw [hp, hash2Lit]
    decide
  rw [hn, hc]
  decide

/-- C3: with the verifying key constants compiled into the program all
zero, verify_groth16_transfer returns Ok true for every 256-byte proof
and all values of the merkle root, nullifier and new commitment, for
every external pairing verifier: the pairing check is never executed. -/
theorem C3_groth16_always_accepts (pairing : PairingVerifier)
    (proof root nf cm : List Nat) (h : proof.length = PROOF_SIZE) :
    verify_groth16_transfer pairing proof root nf cm = .ok true := by
  have hlt : ¬ proof.length < PROOF_SIZE := by omega
  unfold verify_groth16_transfer Groth16Proof.fromBytes
  rw [if_neg hlt, vk_uninitialized]
  rfl

/-- C3 witness: a concrete all-zero 256-byte proof is accepted even
under a pairing verifier that rejects everything. -/
theorem C3_witness :
    verify_groth16_transfer (fun _ _ => some false) (List.replicate 256 0)
      zeros32 zeros32 zeros32 = .ok true :=
  C3_groth16_always_accepts (fun _ _ => some false) (List.replicate 256 0)
    zeros32 zeros32 zeros32 (by rw [List.length_replicate]; rfl)

/-- C4: a transfer instruction that returns an error commits no pool
state under the transactional semantics of the host runtime; in
particular when the tree is full the instruction always returns an
error, so the committed pool is unchanged, the nullifier marker is
unwritten and the nullifier count is unchanged. -/
theorem C4_transfer_atomic (pairing : PairingVerifier) (poolKey : List Nat)
    (pool : PrivacyPool) (nf cm proof : List Nat) (slot : Nat) :
    (∀ e, process_transfer pairing poolKey pool nf cm proof slot = .error e →
      applyTransfer pairing poolKey pool nf cm proof slot = (pool, none)) ∧
    (MAX_LEAVES ≤ pool.merkle_tree.next_index →
      (∃ e, process_transfer pairing poolKey pool nf cm proof slot = .error e) ∧
      applyTransfer pairing poolKey pool nf cm proof slot = (pool, none)) := by
  constructor
  · intro e he
    unfold applyTransfer
    rw [he]
  · intro hfull
    have hadd : (pool.record_nullifier_spent).add_commitment cm = .error () := by
      unfold PrivacyPool.add_commitment Prog.IncrementalMerkleTree.insert
      rw [if_neg (by simp [PrivacyPool.record_nullifier_spent]; omega)]
    have herr : ∃ e, process_transfer pairing poolKey pool nf cm proof slot = .error e := by
      unfold process_transfer
      by_cases h1 : proof.length < MVP_PROOF_SIZE
      · rw [if_pos h1]; exact ⟨_, rfl⟩
      · rw [if_neg h1]
        cases hv : verify_transfer_proof pairing proof nf cm pool.current_root with
        | error e => exact ⟨_, rfl⟩
        | ok valid =>
            cases valid with
            | false => exact ⟨_, rfl⟩
            | true =>
                refine ⟨.nyx .poolFull, ?_⟩
                simp [hadd]
    obtain ⟨e, he⟩ := herr
    refine ⟨⟨e, he⟩, ?_⟩
    unfold applyTransfer
    rw [he]

/-- C4 witness: the atomicity statement applied to a concrete pool
whose tree is full, with an all-zero 256-byte proof. -/
theorem C4_witness :
    (∀ e, process_transfer (fun _ _ => none) zeros32
        ⟨zeros32, ⟨MAX_LEAVES, [], []⟩, [], 0, 0, 0, 0, 0⟩
        zeros32 zeros32 (List.replicate 256 0) 0 = .error e →
      applyTransfer (fun _ _ => none) zeros32
        ⟨zeros32, ⟨MAX_LEAVES, [], []⟩, [], 0, 0, 0, 0, 0⟩
        zeros32 zeros32 (List.replicate 256 0) 0 =
        (⟨zeros32, ⟨MAX_LEAVES, [], []⟩, [], 0, 0, 0, 0, 0⟩, none)) ∧
    (MAX_LEAVES ≤ (⟨zeros32, ⟨MAX_LEAVES, [], []⟩, [], 0, 0, 0, 0, 0⟩ :
        PrivacyPool).merkle_tree.next_index →
      (∃ e, process_transfer (fun _ _ => none) zeros32
          ⟨zeros32, ⟨MAX_LEAVES, [], []⟩, [], 0, 0, 0, 0, 0⟩
          zeros32 zeros32 (List.replicate 256 0) 0 = .error e) ∧
      applyTransfer (fun _ _ => none) zeros32
        ⟨zeros32, ⟨MAX_LEAVES, [], []⟩, [], 0, 0, 0, 0, 0⟩
        zeros32 zeros32 (List.replicate 256 0) 0 =
        (⟨zeros32, ⟨MAX_LEAVES, [], []⟩, [], 0, 0, 0, 0, 0⟩, none)) :=
  C4_transfer_atomic (fun _ _ => none) zeros32
    ⟨zeros32, ⟨MAX_LEAVES, [], []⟩, [], 0, 0, 0, 0, 0⟩ zeros32 zeros32
    (List.replicate 256 0) 0

/-- C5 (amended): the off-chain PoseidonMerkleTree starts with root
Z twenty, the Poseidon zero-hash recursion from the zero field element;
the pool tree created by the Initialize instruction instead starts with
the keccak zero-hash recursion from the hardcoded keccak zero value,
and the two roots differ as byte strings. -/
theorem C5_amended_roots (auth : List Nat) (bump : Nat) :
    PoseidonMerkleTree.new.current_root = coreZeros TREE_DEPTH ∧
    (PrivacyPool.initPool auth bump).current_root = Prog.progZeros TREE_DEPTH ∧
    Prog.progZeros TREE_DEPTH ≠ leBytes32 (coreZeros TREE_DEPTH) := by
  refine ⟨rfl, rfl, ?_⟩
  rw [show TREE_DEPTH = 20 from rfl, progZerosLit20, coreZerosLit20]
  decide

set_option maxRecDepth 40000 in
/-- C5 counterexample: the root of the pool tree created by the
Initialize instruction is not the little-endian encoding of Z twenty,
nor its big-endian reversal, refuting the claim for the on-chain
tree. -/
theorem C5_counterexample :
    (PrivacyPool.initPool zeros32 0).current_root ≠ leBytes32 (coreZeros TREE_DEPTH) ∧
    (PrivacyPool.initPool zeros32 0).current_root ≠
      (leBytes32 (coreZeros TREE_DEPTH)).reverse := by
  have h : (PrivacyPool.initPool zeros32 0).current_root = Prog.progZeros 20 := rfl
  constructor <;>
    rw [h, show TREE_DEPTH = 20 from rfl, progZerosLit20, coreZerosLit20] <;> decide

/-- C6: for every 256-byte proof, verify_unshield_proof is independent
of the recipient and the amount, for every nullifier, root, and
external pairing verifier: the Groth16 branch verifies against the
fixed all-zero burn commitment and never reads them. -/
theorem C6_unshield_ignores_recipient_and_amount (pairing : PairingVerifier)
    (proof nf root r1 r2 : List Nat) (a1 a2 : Nat) (h : proof.length = PROOF_SIZE) :
    verify_unshield_proof pairing proof nf r1 a1 root =
      verify_unshield_proof pairing proof nf r2 a2 root := by
  have h96 : proof.length ≠ MVP_PROOF_SIZE := by rw [h]; decide
  unfold verify_unshield_proof ProofType.detect
  rw [if_neg h96, if_pos h]

/-- C6 witness: two concrete runs differing only in recipient and
amount return the same verification result. -/
theorem C6_witness :
    verify_unshield_proof (fun _ _ => some false) (List.replicate 256 0) zeros32
        (List.replicate 32 1) 5 zeros32 =
      verify_unshield_proof (fun _ _ => some false) (List.replicate 256 0) zeros32
        (List.replicate 32 2) 7 zeros32 :=
  C6_unshield_ignores_recipient_and_amount (fun _ _ => some false)
    (List.replicate 256 0) zeros32 zeros32 (List.replicate 32 1) (List.replicate 32 2)
    5 7 (by rw [List.length_replicate]; rfl)

/-- C7: verify_signature returns true exactly when some signature byte
and some public-key byte are nonzero, for every message; consequently
every 96-byte proof whose signature half and public-key half each
contain a nonzero byte passes verify_transfer_proof for arbitrary
nullifier, new commitment and root. -/
theorem C7_signature_structure (pairing : PairingVerifier)
    (msg sig pk proof nf cm root : List Nat)
    (hlen : proof.length = MVP_PROOF_SIZE)
    (hs : (proof.take 64).any (fun b => b ≠ 0) = true)
    (hp : ((proof.drop 64).take 32).any (fun b => b ≠ 0) = true) :
    (verify_signature msg sig pk = true ↔
      ((∃ b ∈ sig, b ≠ 0) ∧ (∃ b ∈ pk, b ≠ 0))) ∧
    verify_transfer_proof pairing proof nf cm root = .ok true := by
  constructor
  · simp [verify_signature, List.any_eq_true]
  · have hlt : ¬ proof.length < MVP_PROOF_SIZE := by omega
    unfold verify_transfer_proof ProofType.detect MvpProof.fromBytes
    rw [if_pos hlen]
    simp only [if_neg hlt]
    simp [verify_signature]
    exact ⟨by simpa using hs, by simpa using hp⟩

set_option maxRecDepth 40000 in
/-- C7 witness: a concrete 96-byte proof with one nonzero byte in each
half is accepted. -/
theorem C7_witness :
    (verify_signature zeros32 (1 :: List.replicate 63 0) (1 :: List.replicate 31 0) = true ↔
      ((∃ b ∈ (1 :: List.replicate 63 0), b ≠ 0) ∧
        (∃ b ∈ (1 :: List.replicate 31 0), b ≠ 0))) ∧
    verify_transfer_proof (fun _ _ => some false)
      (1 :: List.replicate 63 0 ++ (1 :: List.replicate 31 0)) zeros32 zeros32 zeros32 =
      .ok true :=
  C7_signature_structure (fun _ _ => some false) zeros32 (1 :: List.replicate 63 0)
    (1 :: List.replicate 31 0) (1 :: List.replicate 63 0 ++ (1 :: List.replicate 31 0))
    zeros32 zeros32 zeros32 (by decide) (by decide) (by decide)

/-- C8 (amended): the native Poseidon hash fails with EmptyInput on the
empty list; one or two inputs are absorbed directly after the capacity
element and the first state element after one permutation is returned;
more than two inputs fail with InvalidLength expected two.  The rate-two
sponge exists only in the in-circuit gadget, whose variable-input hash
routes more than two inputs to the sponge. -/
theorem C8_amended (a b : Nat) (l : List Nat) (hl : 2 < l.length) :
    poseidonHash [] = .error .emptyInput ∧
    poseidonHash [a] = .ok (poseidonPermute ⟨0, a, 0⟩).s0 ∧
    poseidonHash [a, b] = .ok (poseidonPermute ⟨0, a, b⟩).s0 ∧
    poseidonHash l = .error (.invalidLength 2 l.length) ∧
    gadgetHash l = some (gadgetHashSponge l) := by
  have hne : ¬ l.isEmpty := by
    cases l with
    | nil => simp at hl
    | cons x xs => simp
  refine ⟨rfl, rfl, rfl, ?_, ?_⟩
  · unfold poseidonHash
    rw [if_neg (by simpa using hne), if_pos hl]
  · unfold gadgetHash
    rw [if_neg (by simpa using hne), if_pos hl]

/-- C8 witness: the amended statement at inputs one, two, three. -/
theorem C8_witness :
    poseidonHash [] = .error .emptyInput ∧
    poseidonHash [1] = .ok (poseidonPermute ⟨0, 1, 0⟩).s0 ∧
    poseidonHash [1, 2] = .ok (poseidonPermute ⟨0, 1, 2⟩).s0 ∧
    poseidonHash [1, 2, 3] = .error (.invalidLength 2 [1, 2, 3].length) ∧
    gadgetHash [1, 2, 3] = some (gadgetHashSponge [1, 2, 3]) :=
  C8_amended 1 2 [1, 2, 3] (by decide)

/-- C8 counterexample: the native hash of three inputs is not a sponge
value, it is no value at all: the claim that more than two inputs are
absorbed by a sponge is false for the native front end. -/
theorem C8_counterexample : ¬ ∃ v, poseidonHash [1, 2, 3] = .ok v := by
  intro hex
  obtain ⟨v, hv⟩ := hex
  rw [show poseidonHash [1, 2, 3] = .error (.invalidLength 2 3) from rfl] at hv
  exact Except.noConfusion hv

/-- C9: on every tree state reachable by insertions (next index at most
the capacity), insertion fails with TreeFull exactly when the next
index equals two to the twenty, and a successful insert returns the old
next index and increments it by one; this holds for the on-chain keccak
tree and the off-chain Poseidon tree alike. -/
theorem C9_insert_boundary (t : Prog.IncrementalMerkleTree) (u : PoseidonMerkleTree)
    (leafP : List Nat) (leafC : Nat)
    (ht : t.next_index ≤ MAX_LEAVES) (hu : u.next_index ≤ MAX_LEAVES) :
    ((t.insert leafP = .error .treeFull) ↔ t.next_index = MAX_LEAVES) ∧
    (t.next_index < MAX_LEAVES →
      ∃ t2, t.insert leafP = .ok (t2, t.next_index) ∧ t2.next_index = t.next_index + 1) ∧
    ((u.insert leafC = .error .treeFull) ↔ u.next_index = MAX_LEAVES) ∧
    (u.next_index < MAX_LEAVES →
      ∃ u2, u.insert leafC = .ok (u2, u.next_index) ∧ u2.next_index = u.next_index + 1) := by
  unfold Prog.IncrementalMerkleTree.insert PoseidonMerkleTree.insert
  refine ⟨?_, ?_, ?_, ?_⟩
  · by_cases hc : t.next_index < MAX_LEAVES
    · rw [if_pos hc]
      constructor
      · intro hx; exact absurd hx (by simp)
      · intro hx; omega
    · rw [if_neg hc]
      constructor
      · intro _; omega
      · intro _; rfl
  · intro hc
    rw [if_pos hc]
    exact ⟨_, rfl, rfl⟩
  · by_cases hc : u.next_index ≥ MAX_LEAVES
    · rw [if_pos hc]
      constructor
      · intro _; omega
      · intro _; rfl
    · rw [if_neg hc]
      constructor
      · intro hx; exact absurd hx (by simp)
      · intro hx; omega
  · intro hc
    rw [if_neg (by omega)]
    exact ⟨_, rfl, rfl⟩

/-- C9 witness: the boundary statement applied to two concrete full
trees. -/
theorem C9_witness :
    (((⟨MAX_LEAVES, [], []⟩ : Prog.IncrementalMerkleTree).insert zeros32 = .error .treeFull) ↔
      (⟨MAX_LEAVES, [], []⟩ : Prog.IncrementalMerkleTree).next_index = MAX_LEAVES) ∧
    ((⟨MAX_LEAVES, [], []⟩ : Prog.IncrementalMerkleTree).next_index < MAX_LEAVES →
      ∃ t2, (⟨MAX_LEAVES, [], []⟩ : Prog.IncrementalMerkleTree).insert zeros32 =
          .ok (t2, (⟨MAX_LEAVES, [], []⟩ : Prog.IncrementalMerkleTree).next_index) ∧
        t2.next_index = (⟨MAX_LEAVES, [], []⟩ : Prog.IncrementalMerkleTree).next_index + 1) ∧
    (((⟨MAX_LEAVES, [], 0, []⟩ : PoseidonMerkleTree).insert 0 = .error .treeFull) ↔
      (⟨MAX_LEAVES, [], 0, []⟩ : PoseidonMerkleTree).next_index = MAX_LEAVES) ∧
    ((⟨MAX_LEAVES, [], 0, []⟩ : PoseidonMerkleTree).next_index < MAX_LEAVES →
      ∃ u2, (⟨MAX_LEAVES, [], 0, []⟩ : PoseidonMerkleTree).insert 0 =
          .ok (u2, (⟨MAX_LEAVES, [], 0, []⟩ : PoseidonMerkleTree).next_index) ∧
        u2.next_index = (⟨MAX_LEAVES, [], 0, []⟩ : PoseidonMerkleTree).next_index + 1) :=
  C9_insert_boundary ⟨MAX_LEAVES, [], []⟩ ⟨MAX_LEAVES, [], 0, []⟩ zeros32 0
    (le_refl _) (le_refl _)

/-- C10: for every nonempty leaf sequence of length at most two to the
twenty and every index below its length, building the tree by inserting
the leaves in order succeeds, generating the proof at the index
succeeds, and the generated path verifies the leaf against the root of
the built tree. -/
theorem C10_tree_proofs_verify (L : List Nat) (i : Nat) (hne : L ≠ [])
    (hlen : L.length ≤ 2 ^ TREE_DEPTH) (hi : i < L.length) :
    ∃ t path, treeOfLeaves L = .ok t ∧ t.generateProof i = .ok path ∧
      path.verify (L.getD i 0) t.current_root = true := by
  obtain ⟨t, hins, hinv⟩ := insertAll_inv L hlen
  refine ⟨t, _, hins, generateProof_spec L t i hinv hi, ?_⟩
  unfold MerklePath.verify
  have hl := genLoop_lengths TREE_DEPTH i (padded L)
  rw [if_neg (by push_neg; exact ⟨hl.1, hl.2⟩)]
  have hi2 : i < 2 ^ TREE_DEPTH := by omega
  have hfold := fold_genLoop TREE_DEPTH i (padded L) (padded_length L hlen) hi2
  show (pathFold _ (L.getD i 0) == t.current_root) = true
  rw [← padded_getD L i, hfold, hinv.2.2.2.1,
    ← levelList_getD L hlen TREE_DEPTH 0 (le_refl _) (by norm_num)]
  exact beq_self_eq_true _


/-- C10 witness: the correctness statement at the concrete leaf list
one, two, three and index one. -/
theorem C10_witness :
    ∃ t path, treeOfLeaves [1, 2, 3] = .ok t ∧ t.generateProof 1 = .ok path ∧
      path.verify ([1, 2, 3].getD 1 0) t.current_root = true :=
  C10_tree_proofs_verify [1, 2, 3] 1 (by decide) (by decide) (by decide)

end Veil
